import Mathlib

/-!
Verification development for the Postgres metrics collector
(`server/driver/collector/postgres_collector.py`).

The Python module is shallowly embedded: pure computations become Lean
functions, database interaction is modelled by an explicit `Conn`
environment (mapping each SQL statement to its result) together with a
writer/exception monad `CM` that records the sequence of statements the
collector issues and models Python exceptions (`assert` failures,
`KeyError`, `IndexError`, collector execution errors) as `Except` errors.

Python `float`/`Decimal` values are modelled by exact rationals (`ℚ`);
machine rounding is outside the model.  Python `datetime` values are
modelled by the string their `isoformat()` call would produce, since the
collector only ever observes them through that call.
-/

/-- A value in a SQL result set, as surfaced by the Python DB driver:
`NULL`, `int`, `decimal.Decimal`, `float`, `datetime` (carrying its
`isoformat()` rendering) or `str`. -/
inductive SqlVal where
  | null : SqlVal
  | int (n : ℤ) : SqlVal
  | dec (q : ℚ) : SqlVal
  | flt (q : ℚ) : SqlVal
  | ts (iso : String) : SqlVal
  | str (s : String) : SqlVal
deriving DecidableEq, Repr

/-- A Python dict keyed by strings, in insertion order (Python dicts
preserve insertion order). -/
abbrev Row := List (String × SqlVal)

/-- `k in d` for a Python dict. -/
def dictContains (r : Row) (k : String) : Bool := r.any (fun p => p.1 = k)

/-- `del d[k]` for a Python dict (the key is removed, order of the
remaining entries is preserved). -/
def dictDel (r : Row) (k : String) : Row := r.filter (fun p => p.1 ≠ k)

/-- `d.get(k)` / `d[k]` lookup for a Python dict. -/
def dictGet? (r : Row) (k : String) : Option SqlVal :=
  (r.find? (fun p => p.1 = k)).map (fun p => p.2)

/-- `d[k] = v` for a Python dict: an existing key keeps its position and
gets the new value, a new key is appended at the end. -/
def dictSet (r : Row) (k : String) (v : SqlVal) : Row :=
  if dictContains r k then r.map (fun p => if p.1 = k then (k, v) else p)
  else r ++ [(k, v)]

/-- `a.update(b)` / `{**a, **b}` for Python dicts. -/
def dictUpdate (a b : Row) : Row := b.foldl (fun acc p => dictSet acc p.1 p.2) a

/-- Whitespace in the sense of Python's `str.split()` (ASCII range:
space, tab, newline, carriage return, vertical tab, form feed). -/
def pyIsSpace (c : Char) : Bool :=
  c = ' ' || c = '\t' || c = '\n' || c = '\x0d' || c = Char.ofNat 11 || c = Char.ofNat 12

/-- Helper for `pySplit`: walk the characters, accumulating the current
word (reversed). -/
def pySplitAux : List Char → List Char → List String
  | [], acc => if acc.isEmpty then [] else [String.mk acc.reverse]
  | c :: rest, acc =>
      if pyIsSpace c then
        (if acc.isEmpty then pySplitAux rest []
         else String.mk acc.reverse :: pySplitAux rest [])
      else pySplitAux rest (c :: acc)

/-- Python `s.split()` with no argument: split on runs of whitespace,
no empty words. -/
def pySplit (s : String) : List String := pySplitAux s.data []

/-- Python `s.replace(c, '')` for a single-character pattern and empty
replacement: every occurrence of the character is removed. -/
def removeChar (c : Char) (s : String) : String :=
  String.mk (s.data.filter (fun x => x ≠ c))

/-- Python `s.replace(a, b)` for single-character pattern and
replacement. -/
def replaceChar (a b : Char) (s : String) : String :=
  String.mk (s.data.map (fun x => if x = a then b else x))

/-- The value normalization applied by `_get_metrics` to every non-null
value: `datetime → isoformat() string`, `Decimal → float`, strings have
tabs and newlines removed and are then rebuilt as
`" ".join(s.split())`; other values pass through. -/
def normalize_value : SqlVal → SqlVal
  | .ts iso => .str iso
  | .dec q => .flt q
  | .str s => .str (String.intercalate " " (pySplit (removeChar '\n' (removeChar '\t' s))))
  | v => v

/-- The row construction of `_get_metrics`: for each result row, walk the
values in column order (`for idx, val in enumerate(data)`), skip nulls,
normalize the rest and assign `row[col[idx]] = val`.  The DB driver
yields exactly one value per result column, so pairing by `zip` is
exact. -/
def getMetricsRows (ret : List (List SqlVal)) (col : List String) : List Row :=
  ret.map (fun data =>
    (col.zip data).foldl
      (fun row p => if p.2 = SqlVal.null then row else dictSet row p.1 (normalize_value p.2))
      [])

/-- Python `int(x)` on a numeric DB value: ints pass through, exact
numerics truncate toward zero; `int(None)` and other non-numeric
arguments raise, modelled as `none`. -/
def pyIntVal : SqlVal → Option ℤ
  | .int n => some n
  | .dec q => some (if 0 ≤ q then ⌊q⌋ else ⌈q⌉)
  | .flt q => some (if 0 ≤ q then ⌊q⌋ else ⌈q⌉)
  | _ => none

/-- An observable database interaction: a statement executed with a
fetch of its results (`_cmd` / `_get_metrics`), a statement executed
without fetching (`_cmd_wo_fetch`, `cursor.execute`), or a transaction
commit/rollback. -/
inductive Ev where
  | fetch (sql : String)
  | exec (sql : String)
  | commit
  | rollback
deriving DecidableEq, Repr

/-- The environment a collection cycle runs against: `query` gives the
result set and column names a fetching statement returns, `execOk`
tells whether a non-fetching statement succeeds.  Fetching statements
are assumed to execute successfully; their failure would abort the
cycle before any event of interest. -/
structure Conn where
  query : String → List (List SqlVal) × List String
  execOk : String → Bool

/-- The collector monad: a computation that issues database statements
in order (writer part) and may raise a Python exception (error part). -/
def CM (α : Type) : Type := List Ev → Except String α × List Ev

def CM.pure (a : α) : CM α := fun t => (.ok a, t)

def CM.bind (m : CM α) (f : α → CM β) : CM β := fun t =>
  match m t with
  | (.ok a, t') => f a t'
  | (.error e, t') => (.error e, t')

instance : Monad CM where
  pure := CM.pure
  bind := CM.bind

/-- Raise a Python exception. -/
def CM.fail (e : String) : CM α := fun t => (.error e, t)

/-- Record a database interaction. -/
def logEv (e : Ev) : CM Unit := fun t => (.ok (), t ++ [e])

/-- `_cmd`: execute a statement and fetch `(rows, column_names)`. -/
def _cmd (conn : Conn) (sql : String) : CM (List (List SqlVal) × List String) := do
  logEv (.fetch sql)
  pure (conn.query sql)

/-- `_cmd_wo_fetch`: execute a statement without fetching; a failure is
wrapped into a collector exception. -/
def _cmd_wo_fetch (conn : Conn) (sql : String) : CM Unit := do
  logEv (.exec sql)
  if conn.execOk sql then pure () else CM.fail ("Failed to execute sql " ++ sql)

/-- A failed Python `assert`. -/
def pyAssert (b : Bool) : CM Unit :=
  if b then pure () else CM.fail "AssertionError"

/-- Python `l[0]`: raises `IndexError` on an empty list. -/
def pyHead : List α → CM α
  | [] => CM.fail "IndexError"
  | x :: _ => CM.pure x

/-- Python `d[k]`: raises `KeyError` on a missing key. -/
def pyGetKey (r : Row) (k : String) : CM SqlVal :=
  match dictGet? r k with
  | some v => CM.pure v
  | none => CM.fail "KeyError"

/-- Coerce a value that the Python code uses as a string (attribute
access `.replace` or as a dict key); the columns so used are text
columns, any other runtime type would raise. -/
def asPyStr : SqlVal → CM String
  | .str s => CM.pure s
  | _ => CM.fail "TypeError"

/-- Python `int(...)` inside the collector monad. -/
def toPyInt (v : SqlVal) : CM ℤ :=
  match pyIntVal v with
  | some n => CM.pure n
  | none => CM.fail "TypeError"

/-- A Python `for` loop building one result per element
(structurally recursive `mapM` over the collector monad). -/
def CM.mapM (f : α → CM β) : List α → CM (List β)
  | [] => CM.pure []
  | a :: l => do
      let b ← f a
      let bs ← CM.mapM f l
      pure (b :: bs)

/-- A Python `for` loop threading an accumulator
(structurally recursive `foldlM` over the collector monad). -/
def CM.foldlM (f : β → α → CM β) : β → List α → CM β
  | b, [] => CM.pure b
  | b, a :: l => do
      let b' ← f b a
      CM.foldlM f b' l

/-- `_get_metrics`: fetch a query and map each row to a field mapping
keyed by column name, dropping nulls and normalizing values. -/
def _get_metrics (conn : Conn) (query : String) : CM (List Row) := do
  let rc ← _cmd conn query
  pure (getMetricsRows rc.1 rc.2)

-- sanity examples for the embedding primitives
example : dictUpdate [("a", .int 1), ("b", .int 2)] [("b", .int 9), ("c", .int 3)]
    = [("a", .int 1), ("b", .int 9), ("c", .int 3)] := by decide

example :
    getMetricsRows [[.null, .ts "2024-01-01T00:00:00", .str "a\t b\n c"]] ["x", "y", "z"]
    = [[("y", .str "2024-01-01T00:00:00"), ("z", .str "a b c")]] := by decide

/-! ## SQL statement texts (module-level constants of the source) -/

def BGWRITER_SQL : String := "SELECT * FROM pg_stat_bgwriter;"

def PG_STAT_DATABASE_SQL : String := "SELECT * FROM pg_stat_database;"

def PG_STAT_DATABASE_CONFLICTS_SQL : String := "SELECT * FROM pg_stat_database_conflicts;"

/-- `TABLE_STAT`: aggregated statistics over `pg_stat_user_tables`. -/
def TABLE_STAT : String :=
  "\nSELECT\n  sum(seq_scan) as seq_scan,\n  sum(seq_tup_read) as seq_tup_read,\n  sum(idx_scan) as idx_scan,\n  sum(idx_tup_fetch) as idx_tup_fetch,\n  sum(n_tup_ins) as n_tup_ins,\n  sum(n_tup_upd) as n_tup_upd,\n  sum(n_tup_del) as n_tup_del,\n  sum(n_tup_hot_upd) as n_tup_hot_upd,\n  sum(n_live_tup) as n_live_tup,\n  sum(n_dead_tup) as n_dead_tup,\n  sum(n_mod_since_analyze) as n_mod_since_analyze,\n  sum(vacuum_count) as vacuum_count,\n  sum(autovacuum_count) as autovacuum_count,\n  sum(analyze_count) as analyze_count,\n  sum(autoanalyze_count) as autoanalyze_count\nFROM\n  pg_stat_user_tables;\n"

/-- `TABLE_STATIO`: aggregated I/O statistics over `pg_statio_user_tables`. -/
def TABLE_STATIO : String :=
  "\nSELECT\n  sum(heap_blks_read) as heap_blks_read,\n  sum(heap_blks_hit) as heap_blks_hit,\n  sum(idx_blks_read) as idx_blks_read,\n  sum(idx_blks_hit) as idx_blks_hit,\n  sum(toast_blks_read) as toast_blks_read,\n  sum(toast_blks_hit) as toast_blks_hit,\n  sum(tidx_blks_read) as tidx_blks_read,\n  sum(tidx_blks_hit) as tidx_blks_hit\nFROM\n  pg_statio_user_tables;\n"

/-- `INDEX_STAT`: aggregated statistics over `pg_stat_user_indexes`. -/
def INDEX_STAT : String :=
  "\nSELECT\n  sum(idx_scan) as idx_scan,\n  sum(idx_tup_read) as idx_tup_read,\n  sum(idx_tup_fetch) as idx_tup_fetch\nFROM\n  pg_stat_user_indexes;\n"

/-- `INDEX_STATIO`: aggregated I/O statistics over `pg_statio_user_indexes`. -/
def INDEX_STATIO : String :=
  "\nSELECT\n  sum(idx_blks_read) as idx_blks_read,\n  sum(idx_blks_hit) as idx_blks_hit\nFROM\n  pg_statio_user_indexes;\n"

/-- The five single-scalar activity queries merged into the `sessions`
record (single quotes written as `\x27`). -/
def ACTIVITY_QUERIES : List String :=
  ["select extract(epoch from (NOW() - min(backend_start))) as oldest_backend_time_sec from pg_stat_activity;",
   "select extract(epoch from (NOW() - min(query_start))) as longest_query_time_sec from pg_stat_activity where state = \x27active\x27;",
   "select extract(epoch from (NOW() - min(xact_start))) as longest_transaction_time_sec from pg_stat_activity where state = \x27active\x27;",
   "SELECT count(*) as num_sessions FROM pg_stat_activity WHERE state = \x27active\x27;",
   "SELECT count(*) as num_wait_sessions FROM pg_stat_activity WHERE wait_event_type is not null;"]

def STATE_GROUP_SQL : String :=
  "select state, count(*) from pg_stat_activity group by state having state is not null;"

def WAIT_GROUP_SQL : String :=
  "select wait_event_type, count(*) from pg_stat_activity group by wait_event_type having wait_event_type is not null;"

def CHECK_MODULE_SQL : String :=
  "SELECT count(*) FROM pg_extension where extname=\x27pg_stat_statements\x27;"

def LOAD_MODULE_SQL : String := "CREATE EXTENSION pg_stat_statements;"

/-- The per-query statistics read of `_get_stat_statements`. -/
def PG_STAT_STATEMENTS_EDA_SQL : String :=
  "SELECT queryid, query,  calls, total_exec_time as wait_time, mean_exec_time as latency, blk_read_time+blk_write_time as io, \n            shared_blks_hit,shared_blks_read,shared_blks_dirtied, shared_blks_written, local_blks_hit, local_blks_read, local_blks_dirtied, local_blks_written, \n            temp_blks_read, temp_blks_written, blk_read_time, blk_write_time FROM pg_stat_statements;"

def RESET_STATEMENTS_SQL : String := "select pg_stat_statements_reset(0);"

def RESET_STATS_SQL : String := "select pg_stat_reset();"

/-- The throughput read of the `performance` step of `collect_metrics_pg`. -/
def TPS_SQL : String :=
  "SELECT total_calls / total_exec_time AS tps\n                                    FROM (\n                                    SELECT sum(calls) AS total_calls, sum(total_exec_time) AS total_exec_time\n                                    FROM pg_stat_statements\n                                    ) AS subquery;"

/-- The tail-latency read of the `performance` step of `collect_metrics_pg`. -/
def LATENCY_95TH_SQL : String :=
  "SELECT percentile_cont(0.95) WITHIN GROUP (ORDER BY total_exec_time) AS latency_95th_percentile\n                                    FROM pg_stat_statements;"

/-! ## Target selection and id-list rendering -/

/-- Modelled from the spec: the size-ranking query behind
`selectTargetTables`, limited to `n` results.  Its SQL text lives in
`pg_table_level_stats_sqls.py`, which is not among the sources; the
collector only passes the formatted text to the connection, so an
abstract statement text is used. -/
def TOP_N_LARGEST_TABLES_SQL_TEMPLATE (n : ℤ) : String :=
  "TOP_N_LARGEST_TABLES LIMIT " ++ toString n

/-- Modelled from the spec: the index size-ranking query scoped to the
selected tables, limited to `n` results (text absent from the sources,
see `TOP_N_LARGEST_TABLES_SQL_TEMPLATE`). -/
def TOP_N_LARGEST_INDEXES_SQL_TEMPLATE (table_list : String) (n : ℤ) : String :=
  "TOP_N_LARGEST_INDEXES OF " ++ table_list ++ " LIMIT " ++ toString n

/-- Modelled from the spec: the three per-index statistics statements of
`INDEX_STATS_SQLS`, each formatted with the rendered index-list (texts
absent from the sources). -/
def PG_STAT_USER_INDEXES_TEMPLATE (index_list : String) : String :=
  "PG_STAT_USER_INDEXES OF " ++ index_list

def PG_STATIO_USER_INDEXES_TEMPLATE (index_list : String) : String :=
  "PG_STATIO_USER_INDEXES OF " ++ index_list

def PG_INDEX_TEMPLATE (index_list : String) : String :=
  "PG_INDEX OF " ++ index_list

/-- Python `str(tuple)` for a tuple of ints with two or more elements:
a parenthesized list separated by comma-space. -/
def pyTupleStr (ids : List ℤ) : String :=
  "(" ++ String.intercalate ", " (ids.map toString) ++ ")"

/-- A catalog id extracted from a ranking row (`table[0]` / `index[0]`);
ids are integers in the catalog. -/
def asDbId : SqlVal → CM ℤ
  | .int n => CM.pure n
  | _ => CM.fail "unexpected non-integer catalog id"

/-- `TargetTableInfo`: the selected table ids and their pre-rendered
SQL-list string. -/
structure TargetTableInfo where
  target_tables : List ℤ
  target_tables_str : String
deriving DecidableEq, Repr

/-- `get_target_table_info`: run the table size-ranking query, extract
the id column, render the id-list string
(`str(tuple)` if more than one id, `"(id)"` for one, `"(0)"` for none). -/
def get_target_table_info (conn : Conn) (num_table_to_collect_stats : ℤ) :
    CM TargetTableInfo := do
  let rc ← _cmd conn (TOP_N_LARGEST_TABLES_SQL_TEMPLATE num_table_to_collect_stats)
  let target_tables ← CM.mapM (fun table => do asDbId (← pyHead table)) rc.1
  let target_tables_str :=
    if target_tables.length > 1 then pyTupleStr target_tables
    else if target_tables.length = 1 then "(" ++ toString target_tables.headI ++ ")"
    else "(0)"
  pure (TargetTableInfo.mk target_tables target_tables_str)

/-- A `{columns, rows}` result block of the table/index-level metric
mappings. -/
structure RawTable where
  columns : List String
  rows : List (List SqlVal)
deriving DecidableEq, Repr

/-- `INDEX_STATS_SQLS` (field name, statement template), in its fixed
iteration order. -/
def INDEX_STATS_SQLS : List (String × (String → String)) :=
  [("pg_stat_user_indexes_all_fields", PG_STAT_USER_INDEXES_TEMPLATE),
   ("pg_statio_user_indexes_all_fields", PG_STATIO_USER_INDEXES_TEMPLATE),
   ("pg_index_all_fields", PG_INDEX_TEMPLATE)]

/-- `collect_index_metrics`: rank indexes of the selected tables, render
the index-list string (the same expression as in
`get_target_table_info`), fetch the three per-index statistics
statements, and keep each ranked index size under `indexes_size`. -/
def collect_index_metrics (conn : Conn) (target_table_info : TargetTableInfo)
    (num_index_to_collect_stats : ℤ) : CM (List (String × RawTable)) := do
  let target_tables_str := target_table_info.target_tables_str
  let rc ← _cmd conn
    (TOP_N_LARGEST_INDEXES_SQL_TEMPLATE target_tables_str num_index_to_collect_stats)
  let target_indexes_tuple := rc.1
  let target_indexes ← CM.mapM (fun index => do asDbId (← pyHead index)) target_indexes_tuple
  let target_indexes_str :=
    if target_indexes.length > 1 then pyTupleStr target_indexes
    else if target_indexes.length = 1 then "(" ++ toString target_indexes.headI ++ ")"
    else "(0)"
  let metrics ← CM.mapM (fun fs => do
      let rcf ← _cmd conn (fs.2 target_indexes_str)
      pure (fs.1, RawTable.mk rcf.2 rcf.1)) INDEX_STATS_SQLS
  let sizeRows ←
    if target_indexes.isEmpty then pure ([] : List (List SqlVal))
    else CM.mapM (fun index => do
      let a ← pyHead index
      let b ← (match index with
               | _ :: b :: _ => CM.pure b
               | _ => CM.fail "IndexError")
      pure [a, b]) target_indexes_tuple
  pure (metrics ++ [("indexes_size", RawTable.mk ["indexrelid", "index_size"] sizeRows)])

/-! ## Bloat estimation (`BloatEstimator`) -/

/-- Python `a % b` on floats: `a - b * floor(a / b)` (for the positive
divisors used here this agrees with Python exactly; Python raises on a
zero divisor, where this total model returns `a`). -/
def pyMod (a b : ℚ) : ℚ := a - b * (⌊a / b⌋ : ℤ)

/-- The `tpl_size` local of `_calculate_bloat_ratio_for_table`:
`4 + tpl_hdr_size + (tpl_data_size + padding_size) + 2*ma` minus one
alignment correction for the header and one for the (ceiled) data part.
Integer `%` is Euclidean, agreeing with Python for the positive
alignment widths used. -/
def tpl_size_calc (padding_size : ℤ) (tpl_data_size tpl_hdr_size : ℚ) (ma : ℤ) : ℚ :=
  let tds := tpl_data_size + (padding_size : ℚ)
  4 + tpl_hdr_size + tds + 2 * (ma : ℚ)
    - (if pyMod tpl_hdr_size (ma : ℚ) = 0 then (ma : ℚ) else pyMod tpl_hdr_size (ma : ℚ))
    - (if (⌈tds⌉ % ma : ℤ) = 0 then (ma : ℚ) else ((⌈tds⌉ % ma : ℤ) : ℚ))

/-- The `est_tblpages_ff` local of `_calculate_bloat_ratio_for_table`:
`ceil(reltuples / ((bs - page_hdr) * fillfactor / (tpl_size * 100.0)))`. -/
def est_tblpages_ff (padding_size : ℤ) (tpl_data_size tpl_hdr_size : ℚ) (ma : ℤ)
    (reltuples bs page_hdr fillfactor : ℚ) : ℤ :=
  ⌈reltuples /
    ((bs - page_hdr) * fillfactor /
      (tpl_size_calc padding_size tpl_data_size tpl_hdr_size ma * 100))⌉

/-- `_calculate_bloat_ratio_for_table`: `None` when not applicable,
otherwise `100.0 * (tblpages - est_tblpages_ff) / tblpages` when that
numerator is positive, else `0`. -/
def _calculate_bloat_ratio_for_table (is_na : Bool) (padding_size : ℤ)
    (tpl_data_size tpl_hdr_size : ℚ) (ma : ℤ)
    (tblpages reltuples bs page_hdr fillfactor : ℚ) : Option ℚ :=
  if is_na then none
  else
    let est := est_tblpages_ff padding_size tpl_data_size tpl_hdr_size ma
      reltuples bs page_hdr fillfactor
    if tblpages - (est : ℚ) > 0 then some (100 * (tblpages - (est : ℚ)) / tblpages)
    else some 0

/-! ## Padding computation -/

/-- Modelled from the spec: the alignment class code of a column
(`pg_attribute.attalign`). -/
inductive AlignClass where
  | c | s | i | d
deriving DecidableEq, Repr

/-- Modelled from the spec: `ALIGNMENT_DICT` maps each alignment class
code to the alignment requirement in bytes, one of 1, 2, 4 or 8.  The
dict itself lives in `pg_table_level_stats_sqls.py`, which is not among
the sources. -/
def ALIGNMENT_DICT : AlignClass → ℤ
  | .c => 1
  | .s => 2
  | .i => 4
  | .d => 8

/-- One row of the padding-helper query:
`(relid, attname, attalign, avg_width)`. -/
structure FieldInfo where
  relid : ℤ
  attname : String
  attalign : AlignClass
  avg_width : ℤ
deriving DecidableEq, Repr

/-- Python `x & ~m` on ints, written through the two's-complement
identity `x & ~m = x - (x & m)`; `Int.land` on the nonnegative
arguments used here coincides with Python `&`. -/
def pyAndNot (x m : ℤ) : ℤ := x - Int.land x m

/-- One alignment rounding step of the padding loop:
`cur_alignment_ = align - 1; (offset + cur_alignment_) & ~cur_alignment_`. -/
def pad_step (offset align : ℤ) : ℤ := pyAndNot (offset + (align - 1)) (align - 1)

/-- The `for field in table_fields_info[1:]` loop of
`_calculate_padding_size_for_table`, carrying `(padding, offset)`. -/
def pad_loop : ℤ × ℤ → List FieldInfo → ℤ × ℤ
  | s, [] => s
  | (padding, offset), f :: rest =>
      let padded_size := pad_step offset (ALIGNMENT_DICT f.attalign)
      pad_loop (padding + (padded_size - offset), padded_size + f.avg_width) rest

/-- `_calculate_padding_size_for_table`: offset starts at the first
field width, the loop rounds up per alignment, and a final 4-byte step
is added.  The caller only passes non-empty groups (a `groupby` group);
an empty list, on which Python would raise `IndexError`, is `none`. -/
def _calculate_padding_size_for_table : List FieldInfo → Option ℤ
  | [] => none
  | f0 :: rest =>
      let s := pad_loop (0, f0.avg_width) rest
      let padded_size := pyAndNot (s.2 + 3) 3
      some (s.1 + (padded_size - s.2))

/-- The padding algorithm exactly as the spec states it (for the
refinement check of the concrete padding claim): running offset from
the first column width; per subsequent column `mask = align - 1`,
`padded = (offset + mask) AND NOT mask`, accumulate `padded - offset`,
advance by the column width; after the last column one final 4-byte
alignment step contributes its padding. -/
def spec_padding_from (offset : ℤ) : List FieldInfo → ℤ
  | [] => pyAndNot (offset + 3) 3 - offset
  | f :: rest =>
      let align := ALIGNMENT_DICT f.attalign
      let padded := pyAndNot (offset + (align - 1)) (align - 1)
      (padded - offset) + spec_padding_from (padded + f.avg_width) rest

/-- Spec-side padding for a whole (non-empty) column list. -/
def spec_padding : List FieldInfo → Option ℤ
  | [] => none
  | f0 :: rest => some (spec_padding_from f0.avg_width rest)

-- sanity check of the concrete padding scenario of the spec
example :
    _calculate_padding_size_for_table
      [FieldInfo.mk 1 "a" .i 4, FieldInfo.mk 1 "b" .c 1, FieldInfo.mk 1 "c" .d 8]
    = some 3 := by decide

/-! ## The two aggregation entry points (`MetricAggregator`) -/

/-- One record of the tagged-measurement shape
(`collect_metrics_influx`): `{measurement, optional tags, fields}`. -/
structure InfluxMetric where
  measurement : String
  tags : Option Row
  fields : Row
deriving DecidableEq, Repr

/-- The `data` entry of a table-oriented record: either one field
mapping or a full list of per-object rows. -/
inductive PgData where
  | one (r : Row)
  | many (rs : List Row)
deriving DecidableEq, Repr

/-- One record of the table-oriented shape (`collect_metrics_pg`):
`{table, data}`. -/
structure PgMetric where
  table : String
  data : PgData
deriving DecidableEq, Repr

/-- Split a string on a separator character, keeping empty parts
(Python `s.split(sep)`). -/
def splitCharAux (sep : Char) : List Char → List Char → List String
  | [], acc => [String.mk acc.reverse]
  | c :: rest, acc =>
      if c = sep then String.mk acc.reverse :: splitCharAux sep rest []
      else splitCharAux sep rest (c :: acc)

/-- Python `s.split('_')[-1]`. -/
def pyLastPart (s : String) : String := (splitCharAux '_' s.data []).getLastD s

/-- `PG_STAT_VIEWS_LOCAL_RAW['database']`. -/
def PG_STAT_VIEWS_LOCAL_RAW_database : List String :=
  ["pg_stat_database", "pg_stat_database_conflicts"]

/-- The `bgwriter` step: fetch `pg_stat_bgwriter`, assert the global
view has exactly one row, drop a `stats_reset` column. -/
def influx_bgwriter (conn : Conn) : CM InfluxMetric := do
  let rows ← _get_metrics conn BGWRITER_SQL
  pyAssert (rows.length = 1)
  let r0 ← pyHead rows
  let r0 := if dictContains r0 "stats_reset" then dictDel r0 "stats_reset" else r0
  pure (InfluxMetric.mk "bgwriter" none r0)

/-- The raw database-views step: one record per row of each view,
tagged by the row id (`datid`), with the id column removed and any
`stats_reset` column dropped. -/
def influx_database (conn : Conn) : CM (List InfluxMetric) := do
  let views := PG_STAT_VIEWS_LOCAL_RAW_database
  let views_key := "datid"
  let rss ← CM.mapM (fun view => do
      let rows ← _get_metrics conn ("SELECT * FROM " ++ view ++ ";")
      CM.mapM (fun row => do
          let measurement :=
            if view = "pg_stat_database" then "database_statistics" else pyLastPart view
          let tagv ← pyGetKey row views_key
          let row := dictDel row views_key
          let row := if dictContains row "stats_reset" then dictDel row "stats_reset" else row
          pure (InfluxMetric.mk measurement (some [(views_key, tagv)]) row)) rows) views
  pure rss.flatten

/-- The `access` step: the aggregated table statistics row updated with
the aggregated index statistics row. -/
def influx_access (conn : Conn) : CM InfluxMetric := do
  let rows ← _get_metrics conn TABLE_STAT
  let r0 ← pyHead rows
  let r0 := if dictContains r0 "stats_reset" then dictDel r0 "stats_reset" else r0
  let rows2 ← _get_metrics conn INDEX_STAT
  let r1 ← pyHead rows2
  pure (InfluxMetric.mk "access" none (dictUpdate r0 r1))

/-- The `io` step: the aggregated table I/O row updated with the
aggregated index I/O row. -/
def influx_io_step (conn : Conn) : CM InfluxMetric := do
  let rows ← _get_metrics conn TABLE_STATIO
  let r0 ← pyHead rows
  let r0 := if dictContains r0 "stats_reset" then dictDel r0 "stats_reset" else r0
  let rows2 ← _get_metrics conn INDEX_STATIO
  let r1 ← pyHead rows2
  pure (InfluxMetric.mk "io" none (dictUpdate r0 r1))

/-- The `sessions` step: merge the five single-scalar activity queries
into one field mapping keyed by each result column name, with `int()`
truncation. -/
def influx_sessions (conn : Conn) : CM InfluxMetric := do
  let fields ← CM.foldlM (fun fields q => do
      let rc ← _cmd conn q
      let row0 ← pyHead rc.1
      let v ← pyHead row0
      let m0 ← pyHead rc.2
      let n ← toPyInt v
      pure (dictSet fields m0 (SqlVal.int n))) ([] : Row) ACTIVITY_QUERIES
  pure (InfluxMetric.mk "sessions" none fields)

/-- The `active_sessions` step: session counts grouped by state, state
names with spaces replaced by underscores. -/
def influx_active_sessions (conn : Conn) : CM InfluxMetric := do
  let rows ← _get_metrics conn STATE_GROUP_SQL
  let fields ← CM.foldlM (fun fields row => do
      let sv ← pyGetKey row "state"
      let s ← asPyStr sv
      let s := replaceChar ' ' '_' s
      let cv ← pyGetKey row "count"
      pure (dictSet fields s cv)) ([] : Row) rows
  pure (InfluxMetric.mk "active_sessions" none fields)

/-- The `waiting_sessions` step: session counts grouped by wait-event
type. -/
def influx_waiting_sessions (conn : Conn) : CM InfluxMetric := do
  let rows ← _get_metrics conn WAIT_GROUP_SQL
  let fields ← CM.foldlM (fun fields row => do
      let wv ← pyGetKey row "wait_event_type"
      let w ← asPyStr wv
      let cv ← pyGetKey row "count"
      pure (dictSet fields w cv)) ([] : Row) rows
  pure (InfluxMetric.mk "waiting_sessions" none fields)

/-- `_load_stat_statements`: check the extension catalog for
`pg_stat_statements` and, if absent, attempt a best-effort
`CREATE EXTENSION` plus commit; a failure is logged, rolled back and
reported as `false`. -/
def _load_stat_statements (conn : Conn) : CM Bool := do
  let rc ← _cmd conn CHECK_MODULE_SQL
  let row0 ← pyHead rc.1
  let v ← pyHead row0
  let module_exists := (v = SqlVal.int 1)
  if module_exists then pure true
  else do
    logEv (.exec LOAD_MODULE_SQL)
    if conn.execOk LOAD_MODULE_SQL then do
      logEv .commit
      pure true
    else do
      logEv .rollback
      pure false

/-- `_get_stat_statements`: bootstrap the extension; on success read
the per-query statistics and reset the statements accumulator.  The
reset sits in a try-block whose handler only logs, so a reset failure
still returns the rows already fetched; in the model the reset is
recorded and never fatal here. -/
def _get_stat_statements (conn : Conn) : CM (List Row) := do
  let success ← _load_stat_statements conn
  if success then do
    let res ← _get_metrics conn PG_STAT_STATEMENTS_EDA_SQL
    logEv (.exec RESET_STATEMENTS_SQL)
    pure res
  else pure []

/-- `collect_metrics_influx`: one full collection cycle in the
tagged-measurement shape; records are appended to the `metrics` list
passed by the caller (Python mutates that list in place and returns
it). -/
def collect_metrics_influx (conn : Conn) (metrics : List InfluxMetric) :
    CM (List InfluxMetric) := do
  let m1 ← influx_bgwriter conn
  let metrics := metrics ++ [m1]
  let ms2 ← influx_database conn
  let metrics := metrics ++ ms2
  let m3 ← influx_access conn
  let metrics := metrics ++ [m3]
  let m4 ← influx_io_step conn
  let metrics := metrics ++ [m4]
  let m5 ← influx_sessions conn
  let metrics := metrics ++ [m5]
  let m6 ← influx_active_sessions conn
  let metrics := metrics ++ [m6]
  let m7 ← influx_waiting_sessions conn
  let metrics := metrics ++ [m7]
  let rows ← _get_stat_statements conn
  let metrics := metrics ++ rows.map (fun row =>
      InfluxMetric.mk "query_statistics"
        (some (row.filter (fun p => p.1 = "queryid")))
        (row.filter (fun p => p.1 ≠ "queryid")))
  _cmd_wo_fetch conn RESET_STATS_SQL
  pure metrics

/-- The `bgwriter` step of the table-oriented shape. -/
def pg_bgwriter (conn : Conn) : CM PgMetric := do
  let rows ← _get_metrics conn BGWRITER_SQL
  pyAssert (rows.length = 1)
  let r0 ← pyHead rows
  let r0 := if dictContains r0 "stats_reset" then dictDel r0 "stats_reset" else r0
  pure (PgMetric.mk "bgwriter" (PgData.one r0))

/-- The raw database-views step of the table-oriented shape: one record
per view holding the full row list (only `stats_reset` columns are
dropped; no per-row flattening). -/
def pg_database (conn : Conn) : CM (List PgMetric) := do
  let views := PG_STAT_VIEWS_LOCAL_RAW_database
  CM.mapM (fun view => do
      let rows ← _get_metrics conn ("SELECT * FROM " ++ view ++ ";")
      let table :=
        if view = "pg_stat_database" then "database_statistics" else pyLastPart view
      let rows := rows.map (fun row =>
        if dictContains row "stats_reset" then dictDel row "stats_reset" else row)
      pure (PgMetric.mk table (PgData.many rows))) views

/-- The `access` step of the table-oriented shape. -/
def pg_access (conn : Conn) : CM PgMetric := do
  let rows ← _get_metrics conn TABLE_STAT
  let r0 ← pyHead rows
  let r0 := if dictContains r0 "stats_reset" then dictDel r0 "stats_reset" else r0
  let rows2 ← _get_metrics conn INDEX_STAT
  let r1 ← pyHead rows2
  pure (PgMetric.mk "access" (PgData.one (dictUpdate r0 r1)))

/-- The `io` step of the table-oriented shape. -/
def pg_io_step (conn : Conn) : CM PgMetric := do
  let rows ← _get_metrics conn TABLE_STATIO
  let r0 ← pyHead rows
  let r0 := if dictContains r0 "stats_reset" then dictDel r0 "stats_reset" else r0
  let rows2 ← _get_metrics conn INDEX_STATIO
  let r1 ← pyHead rows2
  pure (PgMetric.mk "io" (PgData.one (dictUpdate r0 r1)))

/-- The `sessions` step of the table-oriented shape. -/
def pg_sessions (conn : Conn) : CM PgMetric := do
  let data ← CM.foldlM (fun data q => do
      let rc ← _cmd conn q
      let row0 ← pyHead rc.1
      let v ← pyHead row0
      let m0 ← pyHead rc.2
      let n ← toPyInt v
      pure (dictSet data m0 (SqlVal.int n))) ([] : Row) ACTIVITY_QUERIES
  pure (PgMetric.mk "sessions" (PgData.one data))

/-- The `active_sessions` step of the table-oriented shape. -/
def pg_active_sessions (conn : Conn) : CM PgMetric := do
  let rows ← _get_metrics conn STATE_GROUP_SQL
  let data ← CM.foldlM (fun data row => do
      let sv ← pyGetKey row "state"
      let s ← asPyStr sv
      let s := replaceChar ' ' '_' s
      let cv ← pyGetKey row "count"
      pure (dictSet data s cv)) ([] : Row) rows
  pure (PgMetric.mk "active_sessions" (PgData.one data))

/-- The `waiting_sessions` step of the table-oriented shape. -/
def pg_waiting_sessions (conn : Conn) : CM PgMetric := do
  let rows ← _get_metrics conn WAIT_GROUP_SQL
  let data ← CM.foldlM (fun data row => do
      let wv ← pyGetKey row "wait_event_type"
      let w ← asPyStr wv
      let cv ← pyGetKey row "count"
      pure (dictSet data w cv)) ([] : Row) rows
  pure (PgMetric.mk "waiting_sessions" (PgData.one data))

/-- The `performance` step of `collect_metrics_pg`: read throughput and
95th-percentile latency from `pg_stat_statements` (after
`_get_stat_statements` has already reset it) and merge the two one-row
results. -/
def pg_performance (conn : Conn) : CM PgMetric := do
  let tpsRows ← _get_metrics conn TPS_SQL
  let tps ← pyHead tpsRows
  let latRows ← _get_metrics conn LATENCY_95TH_SQL
  let lat ← pyHead latRows
  pure (PgMetric.mk "performance" (PgData.many [dictUpdate tps lat]))

/-- `collect_metrics_pg`: one full collection cycle in the
table-oriented shape; records are appended to the `metrics` list passed
by the caller (Python mutates that list in place and returns it). -/
def collect_metrics_pg (conn : Conn) (metrics : List PgMetric) :
    CM (List PgMetric) := do
  let m1 ← pg_bgwriter conn
  let metrics := metrics ++ [m1]
  let ms2 ← pg_database conn
  let metrics := metrics ++ ms2
  let m3 ← pg_access conn
  let metrics := metrics ++ [m3]
  let m4 ← pg_io_step conn
  let metrics := metrics ++ [m4]
  let m5 ← pg_sessions conn
  let metrics := metrics ++ [m5]
  let m6 ← pg_active_sessions conn
  let metrics := metrics ++ [m6]
  let m7 ← pg_waiting_sessions conn
  let metrics := metrics ++ [m7]
  let rows ← _get_stat_statements conn
  let metrics := metrics ++ [PgMetric.mk "query_statistics" (PgData.many rows)]
  let m9 ← pg_performance conn
  let metrics := metrics ++ [m9]
  _cmd_wo_fetch conn RESET_STATS_SQL
  pure metrics

/-! ## Remaining definitions used by the claim statements -/

/-- Is an event a read (a fetching statement)? -/
def isReadEv : Ev → Bool
  | .fetch _ => true
  | _ => false

/-- Is an event one of the two statistics-reset commands? -/
def isResetEv : Ev → Bool
  | .exec s => s = RESET_STATS_SQL || s = RESET_STATEMENTS_SQL
  | _ => false

/-- No read occurs after any statistics-reset command in the trace. -/
def noReadAfterReset : List Ev → Bool
  | [] => true
  | e :: rest =>
      if isResetEv e then rest.all (fun x => !isReadEv x)
      else noReadAfterReset rest

/-- The statements fetched after the first statistics-reset command of
the trace. -/
def readsAfterFirstReset : List Ev → List String
  | [] => []
  | e :: rest =>
      if isResetEv e then
        rest.filterMap (fun x => match x with | Ev.fetch q => some q | _ => none)
      else readsAfterFirstReset rest

/-- Did a run of the collector monad succeed? -/
def runOk (r : Except String α × List Ev) : Bool :=
  match r.1 with
  | .ok _ => true
  | .error _ => false

/-- The three-way id-list rendering rule exactly as the spec states it:
no id yields `"(0)"`, one id `x` yields `"(x)"`, two or more ids yield a
parenthesized comma list `"(id1,id2,...)"`. -/
def spec_render_id_list (ids : List ℤ) : String :=
  if ids.length = 0 then "(0)"
  else if ids.length = 1 then "(" ++ toString ids.headI ++ ")"
  else "(" ++ String.intercalate "," (ids.map toString) ++ ")"

/-- The amended rendering rule: as `spec_render_id_list` but with the
comma-space separator Python `str(tuple)` actually produces for two or
more ids. -/
def amended_render_id_list (ids : List ℤ) : String :=
  if ids.length = 0 then "(0)"
  else if ids.length = 1 then "(" ++ toString ids.headI ++ ")"
  else "(" ++ String.intercalate ", " (ids.map toString) ++ ")"

/-- The id column of a ranking result, in input order:
`tuple(row[0] for row in rows)`, where each first value is an integer
catalog id (`none` when a row is empty or its first value is not an
integer, the situations where the extraction in the source would
raise). -/
def selected_ids : List (List SqlVal) → Option (List ℤ)
  | [] => some []
  | row :: rest =>
      match row with
      | SqlVal.int n :: _ =>
          match selected_ids rest with
          | some ids => some (n :: ids)
          | none => none
      | _ => none

/-- Extract the value of a successful run (with a default for the error
case, which the concrete runs below never hit). -/
def okValue (r : Except String α × List Ev) (d : α) : α :=
  match r.1 with
  | .ok a => a
  | .error _ => d

/-- A concrete environment on which both collection cycles succeed:
every view yields one small row of integer values (with text where the
code requires it).  The five activity queries and any other statement
fall through to the last branch. -/
def connEx : Conn where
  query := fun sql =>
    if sql = BGWRITER_SQL then ([[.int 5]], ["checkpoints_timed"])
    else if sql = PG_STAT_DATABASE_SQL then ([[.int 1, .int 10]], ["datid", "xact_commit"])
    else if sql = PG_STAT_DATABASE_CONFLICTS_SQL then ([[.int 1, .int 2]], ["datid", "confl_lock"])
    else if sql = TABLE_STAT then ([[.int 3]], ["seq_scan"])
    else if sql = INDEX_STAT then ([[.int 4]], ["idx_scan"])
    else if sql = TABLE_STATIO then ([[.int 6]], ["heap_blks_read"])
    else if sql = INDEX_STATIO then ([[.int 7]], ["idx_blks_read"])
    else if sql = STATE_GROUP_SQL then ([[.str "idle in transaction", .int 2]], ["state", "count"])
    else if sql = WAIT_GROUP_SQL then ([[.str "Lock", .int 1]], ["wait_event_type", "count"])
    else if sql = CHECK_MODULE_SQL then ([[.int 1]], ["count"])
    else if sql = PG_STAT_STATEMENTS_EDA_SQL then ([[.str "11_2_33", .int 7]], ["queryid", "calls"])
    else if sql = TPS_SQL then ([[.int 5]], ["tps"])
    else if sql = LATENCY_95TH_SQL then ([[.int 9]], ["latency_95th_percentile"])
    else ([[.int 1]], ["c"])
  execOk := fun _ => true

/-- The concrete table-oriented cycle run used as evidence. -/
def pgRunEx : Except String (List PgMetric) × List Ev := collect_metrics_pg connEx [] []

/-- The concrete tagged-measurement cycle run used as evidence. -/
def influxRunEx : Except String (List InfluxMetric) × List Ev :=
  collect_metrics_influx connEx [] []

def pgOutEx : List PgMetric := okValue pgRunEx []

def pgTraceEx : List Ev := pgRunEx.2

def influxOutEx : List InfluxMetric := okValue influxRunEx []

def influxTraceEx : List Ev := influxRunEx.2

/-- A concrete environment for the target-selection functions: the
table ranking returns ids 1 and 2, the index ranking returns ids 11 and
12 with sizes. -/
def connC2 : Conn where
  query := fun sql =>
    if sql = TOP_N_LARGEST_TABLES_SQL_TEMPLATE 2 then ([[.int 1], [.int 2]], ["relid"])
    else if sql = TOP_N_LARGEST_INDEXES_SQL_TEMPLATE "(1, 2)" 2 then
      ([[.int 11, .int 100], [.int 12, .int 200]], ["indexrelid", "index_size"])
    else ([[.int 1]], ["c"])
  execOk := fun _ => true

/-- A concrete environment exercising every normalization case of
`_get_metrics` on one statement. -/
def connC8 : Conn where
  query := fun _ =>
    ([[SqlVal.null, SqlVal.ts "2024-01-02T03:04:05", SqlVal.dec 3,
       SqlVal.str " a\tb \n  c ", SqlVal.int 9]],
     ["a", "b", "c", "d", "e"])
  execOk := fun _ => true

/-- A computation that issues no database statement: it leaves the
trace unchanged (it may still fail). -/
def TracePure (m : CM α) : Prop := ∀ t, (m t).2 = t

/-- Equality of run results is decidable (used to evaluate concrete
runs). -/
instance exceptDecEq {ε α : Type} [DecidableEq ε] [DecidableEq α] :
    DecidableEq (Except ε α)
  | .ok a, .ok b =>
      if h : a = b then isTrue (by rw [h])
      else isFalse (fun hh => by cases hh; exact h rfl)
  | .ok _, .error _ => isFalse (fun hh => by cases hh)
  | .error _, .ok _ => isFalse (fun hh => by cases hh)
  | .error e, .error f =>
      if h : e = f then isTrue (by rw [h])
      else isFalse (fun hh => by cases hh; exact h rfl)

/-! ## Helper lemmas -/

theorem pyMod_lt (a : ℚ) {b : ℚ} (hb : 0 < b) : pyMod a b < b := by
  have h := Int.lt_floor_add_one (a / b)
  rw [div_lt_iff₀ hb] at h
  unfold pyMod
  nlinarith [h]

theorem tpl_size_pos (padding_size : ℤ) (tpl_data_size tpl_hdr_size : ℚ) (ma : ℤ)
    (hma : 1 ≤ ma) (hpad : 0 ≤ padding_size) (hd : 0 ≤ tpl_data_size)
    (hh : 0 ≤ tpl_hdr_size) :
    0 < tpl_size_calc padding_size tpl_data_size tpl_hdr_size ma := by
  have hm : (1 : ℚ) ≤ (ma : ℚ) := by exact_mod_cast hma
  have hm0 : (0 : ℚ) < (ma : ℚ) := by linarith
  have hpad' : (0 : ℚ) ≤ (padding_size : ℚ) := by exact_mod_cast hpad
  simp only [tpl_size_calc]
  have h1 : (if pyMod tpl_hdr_size (ma : ℚ) = 0 then (ma : ℚ) else pyMod tpl_hdr_size (ma : ℚ))
      ≤ (ma : ℚ) := by
    split
    · exact le_refl _
    · exact (pyMod_lt _ hm0).le
  have hz : (0 : ℤ) < ma := by exact_mod_cast hm0
  have h2 : (if (⌈tpl_data_size + (padding_size : ℚ)⌉ % ma : ℤ) = 0 then (ma : ℚ)
      else ((⌈tpl_data_size + (padding_size : ℚ)⌉ % ma : ℤ) : ℚ)) ≤ (ma : ℚ) := by
    split
    · exact le_refl _
    · exact_mod_cast (Int.emod_lt_of_pos _ hz).le
  linarith

theorem pad_loop_append (l l' : List FieldInfo) (s : ℤ × ℤ) :
    pad_loop s (l ++ l') = pad_loop (pad_loop s l) l' := by
  induction l generalizing s with
  | nil => rfl
  | cons f rest ih =>
      cases s with
      | mk p o => simp only [List.cons_append, pad_loop]; exact ih _

theorem pad_loop_spec (l : List FieldInfo) : ∀ p o : ℤ,
    (pad_loop (p, o) l).1 + (pyAndNot ((pad_loop (p, o) l).2 + 3) 3 - (pad_loop (p, o) l).2)
      = p + spec_padding_from o l := by
  induction l with
  | nil => intro p o; simp [pad_loop, spec_padding_from]
  | cons f rest ih =>
      intro p o
      simp only [pad_loop, spec_padding_from, pad_step]
      rw [ih]
      ring

/-! ## Claim theorems: bloat estimation -/

/-- C6: for any input with the not-applicable flag set,
`_calculate_bloat_ratio_for_table` yields no value, regardless of all
other factors. -/
theorem bloat_absent_when_not_applicable (padding_size : ℤ)
    (tpl_data_size tpl_hdr_size : ℚ) (ma : ℤ)
    (tblpages reltuples bs page_hdr fillfactor : ℚ) :
    _calculate_bloat_ratio_for_table true padding_size tpl_data_size tpl_hdr_size ma
      tblpages reltuples bs page_hdr fillfactor = none := rfl

/-- C7: whenever the computed estimated page count at full fill
satisfies `tblpages - est_tblpages_ff ≤ 0`, the bloat ratio is exactly
`0`. -/
theorem bloat_zero_when_estimate_reaches_pages (padding_size : ℤ)
    (tpl_data_size tpl_hdr_size : ℚ) (ma : ℤ)
    (tblpages reltuples bs page_hdr fillfactor : ℚ)
    (h : tblpages - (est_tblpages_ff padding_size tpl_data_size tpl_hdr_size ma
        reltuples bs page_hdr fillfactor : ℚ) ≤ 0) :
    _calculate_bloat_ratio_for_table false padding_size tpl_data_size tpl_hdr_size ma
      tblpages reltuples bs page_hdr fillfactor = some 0 := by
  unfold _calculate_bloat_ratio_for_table
  simp only [Bool.false_eq_true, if_false]
  rw [if_neg (not_lt.mpr h)]

theorem bloat_zero_when_estimate_reaches_pages_witness :
    ((0 : ℚ) - (est_tblpages_ff 0 28 23 4 0 8192 24 1 : ℚ) ≤ 0) ∧
    _calculate_bloat_ratio_for_table false 0 28 23 4 0 0 8192 24 1 = some 0 := by
  have hest : est_tblpages_ff 0 28 23 4 0 8192 24 1 = 0 := by
    unfold est_tblpages_ff
    rw [zero_div, Int.ceil_zero]
  constructor
  · rw [hest]; norm_num
  · exact bloat_zero_when_estimate_reaches_pages 0 28 23 4 0 0 8192 24 1
      (by rw [hest]; norm_num)

/-- C9: with a nonnegative live-tuple estimate and a positive
pages-per-page divisor the estimated page count is nonnegative, so for
`tblpages ≤ 0` the guard `tblpages - est_tblpages_ff > 0` fails and the
function returns `0` without ever dividing by `tblpages`. -/
theorem bloat_division_guard (padding_size : ℤ)
    (tpl_data_size tpl_hdr_size : ℚ) (ma : ℤ)
    (tblpages reltuples bs page_hdr fillfactor : ℚ)
    (hrel : 0 ≤ reltuples)
    (hdiv : 0 < (bs - page_hdr) * fillfactor /
        (tpl_size_calc padding_size tpl_data_size tpl_hdr_size ma * 100))
    (htp : tblpages ≤ 0) :
    0 ≤ est_tblpages_ff padding_size tpl_data_size tpl_hdr_size ma
        reltuples bs page_hdr fillfactor ∧
    _calculate_bloat_ratio_for_table false padding_size tpl_data_size tpl_hdr_size ma
      tblpages reltuples bs page_hdr fillfactor = some 0 := by
  have hest : (0 : ℤ) ≤ est_tblpages_ff padding_size tpl_data_size tpl_hdr_size ma
      reltuples bs page_hdr fillfactor :=
    Int.ceil_nonneg (div_nonneg hrel hdiv.le)
  refine ⟨hest, ?_⟩
  have hestq : (0 : ℚ) ≤ (est_tblpages_ff padding_size tpl_data_size tpl_hdr_size ma
      reltuples bs page_hdr fillfactor : ℚ) := by exact_mod_cast hest
  exact bloat_zero_when_estimate_reaches_pages _ _ _ _ _ _ _ _ _ (by linarith)

/-- Evaluation of the tuple size on the concrete realistic factors used
by the witnesses: header 23, data 28, machine alignment 4. -/
theorem tpl_size_calc_ex : tpl_size_calc 0 28 23 4 = 56 := by
  have hfl : (⌊(23 : ℚ) / 4⌋ : ℤ) = 5 := by
    rw [Int.floor_eq_iff]
    norm_num
  have hce : (⌈(28 : ℚ) + ((0 : ℤ) : ℚ)⌉ : ℤ) = 28 := by
    norm_num
  simp only [tpl_size_calc, pyMod, hce, hfl]
  norm_num

theorem bloat_division_guard_witness :
    ((0 : ℚ) ≤ 1000 ∧
      0 < ((8192 : ℚ) - 24) * 1 / (tpl_size_calc 0 28 23 4 * 100) ∧
      (0 : ℚ) ≤ 0) ∧
    0 ≤ est_tblpages_ff 0 28 23 4 1000 8192 24 1 ∧
    _calculate_bloat_ratio_for_table false 0 28 23 4 0 1000 8192 24 1 = some 0 :=
  ⟨by refine ⟨by norm_num, ?_, le_refl 0⟩
      rw [tpl_size_calc_ex]; norm_num,
   bloat_division_guard 0 28 23 4 0 1000 8192 24 1 (by norm_num)
     (by rw [tpl_size_calc_ex]; norm_num) (le_refl 0)⟩

/-- C3, counterexample: with every factor nonnegative (but a page
header larger than the block size) the computed ratio can exceed 100:
at `padding 0, data 0, header 0, ma 1, tblpages 1, reltuples 100,
bs 0, page_hdr 1, fillfactor 1` the function returns `4000100`. -/
theorem bloat_can_exceed_100_on_nonneg_factors :
    _calculate_bloat_ratio_for_table false 0 0 0 1 1 100 0 1 1 = some 4000100 ∧
    (100 : ℚ) < 4000100 := by
  have hT : tpl_size_calc 0 0 0 1 = 4 := by
    simp only [tpl_size_calc, pyMod]
    norm_num
  have harg : (100 : ℚ) / ((0 - 1) * 1 / (tpl_size_calc 0 0 0 1 * 100))
      = ((-40000 : ℤ) : ℚ) := by
    rw [hT]; norm_num
  have hest : est_tblpages_ff 0 0 0 1 100 0 1 1 = -40000 := by
    unfold est_tblpages_ff
    rw [harg, Int.ceil_intCast]
  constructor
  · unfold _calculate_bloat_ratio_for_table
    simp only [Bool.false_eq_true, if_false, hest]
    rw [if_pos (by norm_num)]
    norm_num
  · norm_num

/-- C3, amended: when the flag is clear the computed bloat ratio lies
in `[0, 100]`, under the amended precondition that the factors are
nonnegative, the machine alignment is at least 1, the block size
strictly exceeds the page-header size and the fill factor is positive
(the counterexample shows mere nonnegativity of `bs` and `page_hdr`
does not suffice). -/
theorem bloat_value_bounds_amended (padding_size : ℤ)
    (tpl_data_size tpl_hdr_size : ℚ) (ma : ℤ)
    (tblpages reltuples bs page_hdr fillfactor : ℚ)
    (hma : 1 ≤ ma) (hpad : 0 ≤ padding_size) (hd : 0 ≤ tpl_data_size)
    (hh : 0 ≤ tpl_hdr_size) (hrel : 0 ≤ reltuples)
    (hbs : page_hdr < bs) (hff : 0 < fillfactor) :
    ∃ r : ℚ, _calculate_bloat_ratio_for_table false padding_size tpl_data_size
        tpl_hdr_size ma tblpages reltuples bs page_hdr fillfactor = some r ∧
      0 ≤ r ∧ r ≤ 100 := by
  have hT := tpl_size_pos padding_size tpl_data_size tpl_hdr_size ma hma hpad hd hh
  have hdiv : 0 < (bs - page_hdr) * fillfactor /
      (tpl_size_calc padding_size tpl_data_size tpl_hdr_size ma * 100) := by
    apply div_pos (mul_pos (by linarith) hff)
    nlinarith
  have hest : (0 : ℤ) ≤ est_tblpages_ff padding_size tpl_data_size tpl_hdr_size ma
      reltuples bs page_hdr fillfactor :=
    Int.ceil_nonneg (div_nonneg hrel hdiv.le)
  have hestq : (0 : ℚ) ≤ (est_tblpages_ff padding_size tpl_data_size tpl_hdr_size ma
      reltuples bs page_hdr fillfactor : ℚ) := by exact_mod_cast hest
  unfold _calculate_bloat_ratio_for_table
  simp only [Bool.false_eq_true, if_false]
  by_cases hc : tblpages - (est_tblpages_ff padding_size tpl_data_size tpl_hdr_size ma
      reltuples bs page_hdr fillfactor : ℚ) > 0
  · rw [if_pos hc]
    have htp : (0 : ℚ) < tblpages := by linarith
    refine ⟨_, rfl, ?_, ?_⟩
    · apply div_nonneg (by linarith) htp.le
    · rw [div_le_iff₀ htp]
      nlinarith
  · rw [if_neg hc]
    exact ⟨0, rfl, le_refl 0, by norm_num⟩

theorem bloat_value_bounds_amended_witness :
    ((1 : ℤ) ≤ 4 ∧ (0 : ℤ) ≤ 0 ∧ (0 : ℚ) ≤ 28 ∧ (0 : ℚ) ≤ 23 ∧ (0 : ℚ) ≤ 1000 ∧
      (24 : ℚ) < 8192 ∧ (0 : ℚ) < 1) ∧
    ∃ r : ℚ, _calculate_bloat_ratio_for_table false 0 28 23 4 100 1000 8192 24 1
        = some r ∧ 0 ≤ r ∧ r ≤ 100 :=
  ⟨by norm_num,
   bloat_value_bounds_amended 0 28 23 4 100 1000 8192 24 1
     (by norm_num) (by norm_num) (by norm_num) (by norm_num) (by norm_num)
     (by norm_num) (by norm_num)⟩

/-! ## Claim theorems: padding -/

/-- C4: for every non-empty column list the source computation agrees
with the spec-stated algorithm (offset from the first width, per-column
mask round-up accumulating the difference, final 4-byte step), and on
the concrete scenario — columns (align 4, width 4), (align 1, width 1),
(align 8, width 8) — the padding is exactly 3. -/
theorem padding_follows_spec_and_concrete (fields : List FieldInfo)
    (hne : fields ≠ []) :
    _calculate_padding_size_for_table fields = spec_padding fields ∧
    _calculate_padding_size_for_table
      [FieldInfo.mk 1 "a" .i 4, FieldInfo.mk 1 "b" .c 1, FieldInfo.mk 1 "c" .d 8]
      = some 3 := by
  constructor
  · cases fields with
    | nil => exact absurd rfl hne
    | cons f0 rest =>
        simp only [_calculate_padding_size_for_table, spec_padding]
        have h := pad_loop_spec rest 0 f0.avg_width
        rw [zero_add] at h
        rw [← h]
  · decide

theorem padding_follows_spec_and_concrete_witness :
    ([FieldInfo.mk 1 "a" .i 4, FieldInfo.mk 1 "b" .c 1, FieldInfo.mk 1 "c" .d 8]
        ≠ ([] : List FieldInfo)) ∧
    (_calculate_padding_size_for_table
        [FieldInfo.mk 1 "a" .i 4, FieldInfo.mk 1 "b" .c 1, FieldInfo.mk 1 "c" .d 8]
      = spec_padding
        [FieldInfo.mk 1 "a" .i 4, FieldInfo.mk 1 "b" .c 1, FieldInfo.mk 1 "c" .d 8] ∧
     _calculate_padding_size_for_table
        [FieldInfo.mk 1 "a" .i 4, FieldInfo.mk 1 "b" .c 1, FieldInfo.mk 1 "c" .d 8]
      = some 3) :=
  ⟨by decide,
   padding_follows_spec_and_concrete
     [FieldInfo.mk 1 "a" .i 4, FieldInfo.mk 1 "b" .c 1, FieldInfo.mk 1 "c" .d 8]
     (by decide)⟩

/-- C5, counterexample: appending a zero-width column with the
alignment of the previous column is not padding-invariant.  For columns
(align 2, width 2), (align 8, width 3) the padding is 7, but with a
zero-width align-8 column appended it becomes 11: the width 3 of the
align-8 column leaves the offset unaligned, so the appended column
forces one more round-up. -/
theorem padding_zero_width_append_changes_value :
    _calculate_padding_size_for_table
      [FieldInfo.mk 1 "a" .s 2, FieldInfo.mk 1 "b" .d 3] = some 7 ∧
    _calculate_padding_size_for_table
      [FieldInfo.mk 1 "a" .s 2, FieldInfo.mk 1 "b" .d 3, FieldInfo.mk 1 "c" .d 0]
      = some 11 ∧
    (7 : ℤ) ≠ 11 := by decide

set_option linter.unusedVariables false in
/-- C5, amended: appending the final zero-width same-alignment column
leaves the padding unchanged provided the running offset after the
original columns already sits on that alignment boundary (the rounding
step leaves it unchanged) — the counterexample shows the unconditional
statement fails when the offset is unaligned. -/
theorem padding_zero_width_append_amended (f0 : FieldInfo) (rest : List FieldInfo)
    (z : FieldInfo) (hw : z.avg_width = 0)
    (halign : z.attalign = ((f0 :: rest).getLast (List.cons_ne_nil f0 rest)).attalign)
    (hfix : pad_step (pad_loop (0, f0.avg_width) rest).2 (ALIGNMENT_DICT z.attalign)
            = (pad_loop (0, f0.avg_width) rest).2) :
    _calculate_padding_size_for_table ((f0 :: rest) ++ [z])
      = _calculate_padding_size_for_table (f0 :: rest) := by
  simp only [List.cons_append, _calculate_padding_size_for_table]
  rw [pad_loop_append]
  rcases hpl : pad_loop (0, f0.avg_width) rest with ⟨p, o⟩
  rw [hpl] at hfix
  simp only [pad_loop, hfix, hw]
  norm_num

theorem padding_zero_width_append_amended_witness :
    ((FieldInfo.mk 1 "z" .d 0).avg_width = 0 ∧
     (FieldInfo.mk 1 "z" .d 0).attalign
        = (([FieldInfo.mk 1 "a" .i 4, FieldInfo.mk 1 "b" .c 1, FieldInfo.mk 1 "c" .d 8].getLast
            (by decide)).attalign) ∧
     pad_step (pad_loop (0, (FieldInfo.mk 1 "a" .i 4).avg_width)
          [FieldInfo.mk 1 "b" .c 1, FieldInfo.mk 1 "c" .d 8]).2
        (ALIGNMENT_DICT (FieldInfo.mk 1 "z" .d 0).attalign)
       = (pad_loop (0, (FieldInfo.mk 1 "a" .i 4).avg_width)
          [FieldInfo.mk 1 "b" .c 1, FieldInfo.mk 1 "c" .d 8]).2) ∧
    _calculate_padding_size_for_table
        ((FieldInfo.mk 1 "a" .i 4 :: [FieldInfo.mk 1 "b" .c 1, FieldInfo.mk 1 "c" .d 8])
          ++ [FieldInfo.mk 1 "z" .d 0])
      = _calculate_padding_size_for_table
        (FieldInfo.mk 1 "a" .i 4 :: [FieldInfo.mk 1 "b" .c 1, FieldInfo.mk 1 "c" .d 8]) :=
  ⟨by decide,
   padding_zero_width_append_amended (FieldInfo.mk 1 "a" .i 4)
     [FieldInfo.mk 1 "b" .c 1, FieldInfo.mk 1 "c" .d 8] (FieldInfo.mk 1 "z" .d 0)
     (by decide) (by decide) (by decide)⟩

/-! ## Claim theorems: result normalization -/

theorem zip_fst_sublist (col : List String) (data : List SqlVal) :
    ((col.zip data).map Prod.fst).Sublist col := by
  induction col generalizing data with
  | nil => simp
  | cons c cs ih =>
      cases data with
      | nil => simp
      | cons d ds =>
          simpa using List.Sublist.cons₂ c (ih ds)

theorem foldl_dictSet_filterMap :
    ∀ (l : List (String × SqlVal)) (row : Row),
      (l.map Prod.fst).Nodup →
      (∀ k ∈ l.map Prod.fst, dictContains row k = false) →
      l.foldl (fun row p =>
          if p.2 = SqlVal.null then row else dictSet row p.1 (normalize_value p.2)) row
        = row ++ l.filterMap (fun p =>
            if p.2 = SqlVal.null then none else some (p.1, normalize_value p.2)) := by
  intro l
  induction l with
  | nil => intro row _ _; simp
  | cons p rest ih =>
      intro row hnd hrow
      simp only [List.map_cons, List.nodup_cons] at hnd
      by_cases hv : p.2 = SqlVal.null
      · simp only [List.foldl_cons, if_pos hv, List.filterMap_cons, hv]
        exact ih row hnd.2 (fun k hk => hrow k (List.mem_cons_of_mem _ hk))
      · have hcont : dictContains row p.1 = false :=
          hrow p.1 (List.mem_cons_self _ _)
        simp only [List.foldl_cons, if_neg hv, List.filterMap_cons, if_neg hv]
        rw [dictSet, if_neg (by rw [hcont]; exact Bool.false_ne_true)]
        rw [ih (row ++ [(p.1, normalize_value p.2)]) hnd.2 ?_]
        · simp
        · intro k hk
          have hk1 : dictContains row k = false :=
            hrow k (List.mem_cons_of_mem _ hk)
          have hk2 : k ≠ p.1 := fun h => hnd.1 (h ▸ hk)
          simp only [dictContains, List.any_append] at hk1 ⊢
          simp only [List.any_cons, List.any_nil]
          rw [hk1]
          simp [Ne.symm hk2]

/-- C8: `_get_metrics` maps every result row to a mapping keyed by
column name in which null values are entirely absent, timestamps appear
as their ISO-8601 string, fixed-point decimals as floats, and strings
with tabs and newlines stripped and whitespace runs collapsed to single
spaces (for a result whose column names are distinct, as every
collector query yields). -/
theorem get_metrics_normalization (conn : Conn) (q : String) (t : List Ev)
    (hnd : (conn.query q).2.Nodup) :
    _get_metrics conn q t =
      (Except.ok ((conn.query q).1.map (fun data =>
          ((conn.query q).2.zip data).filterMap (fun p =>
            match p.2 with
            | SqlVal.null => none
            | SqlVal.ts iso => some (p.1, SqlVal.str iso)
            | SqlVal.dec d => some (p.1, SqlVal.flt d)
            | SqlVal.str s => some (p.1, SqlVal.str (String.intercalate " "
                (pySplit (removeChar '\n' (removeChar '\t' s)))))
            | v => some (p.1, v)))),
       t ++ [Ev.fetch q]) := by
  have hrun : _get_metrics conn q t =
      (Except.ok (getMetricsRows (conn.query q).1 (conn.query q).2), t ++ [Ev.fetch q]) := rfl
  rw [hrun]
  refine congrArg (fun x => (Except.ok x, t ++ [Ev.fetch q])) ?_
  unfold getMetricsRows
  apply List.map_congr_left
  intro data _
  have hz : (((conn.query q).2.zip data).map Prod.fst).Nodup :=
    hnd.sublist (zip_fst_sublist _ _)
  rw [foldl_dictSet_filterMap _ [] hz (by intro k _; rfl)]
  rw [List.nil_append]
  apply List.filterMap_congr
  intro p _
  rcases p with ⟨k, v⟩
  cases v <;> simp [normalize_value]

theorem get_metrics_normalization_witness :
    (connC8.query "SELECT 1;").2.Nodup ∧
    _get_metrics connC8 "SELECT 1;" [] =
      (Except.ok [[("b", SqlVal.str "2024-01-02T03:04:05"), ("c", SqlVal.flt 3),
        ("d", SqlVal.str "ab c"), ("e", SqlVal.int 9)]],
       [Ev.fetch "SELECT 1;"]) := by
  constructor
  · decide
  · rw [get_metrics_normalization connC8 "SELECT 1;" [] (by decide)]
    decide

/-! ## Run lemmas for the collector monad -/

theorem CM.pure_run (a : α) (t : List Ev) : (Pure.pure a : CM α) t = (.ok a, t) := rfl

theorem _cmd_run (conn : Conn) (sql : String) (t : List Ev) :
    _cmd conn sql t = (.ok (conn.query sql), t ++ [Ev.fetch sql]) := rfl

theorem CM.bind_eq_ok {α β : Type} {m : CM α} {f : α → CM β} {t tr : List Ev} {b : β} :
    (m >>= f) t = (.ok b, tr) ↔
      ∃ a t₁, m t = (.ok a, t₁) ∧ f a t₁ = (.ok b, tr) := by
  show CM.bind m f t = _ ↔ _
  unfold CM.bind
  rcases h : m t with ⟨r, t1⟩
  cases r with
  | ok a =>
      constructor
      · intro hfa; exact ⟨a, t1, rfl, hfa⟩
      · rintro ⟨a', t', heq, hfa⟩
        rw [Prod.mk.injEq, Except.ok.injEq] at heq
        obtain ⟨h1, h2⟩ := heq
        subst h1; subst h2
        exact hfa
  | error e => simp

theorem run_pure_inv {a b : α} {t t' : List Ev}
    (h : ((Except.ok a, t) : Except String α × List Ev) = (.ok b, t')) :
    a = b ∧ t = t' := by
  injection h with h1 h2
  injection h1 with h1
  exact ⟨h1, h2⟩

theorem tracePure_pure (a : α) : TracePure (Pure.pure a : CM α) := fun _ => rfl

theorem tracePure_fail (e : String) : TracePure (CM.fail e : CM α) := fun _ => rfl

theorem tracePure_pyHead (l : List α) : TracePure (pyHead l) := by
  cases l <;> exact fun _ => rfl

theorem tracePure_asDbId (v : SqlVal) : TracePure (asDbId v) := by
  cases v <;> exact fun _ => rfl

theorem tracePure_asPyStr (v : SqlVal) : TracePure (asPyStr v) := by
  cases v <;> exact fun _ => rfl

theorem tracePure_toPyInt (v : SqlVal) : TracePure (toPyInt v) := by
  unfold toPyInt
  cases pyIntVal v <;> exact fun _ => rfl

theorem tracePure_pyGetKey (r : Row) (k : String) : TracePure (pyGetKey r k) := by
  unfold pyGetKey
  cases dictGet? r k <;> exact fun _ => rfl

theorem tracePure_bind {m : CM α} {f : α → CM β}
    (hm : TracePure m) (hf : ∀ a, TracePure (f a)) : TracePure (m >>= f) := by
  intro t
  show (CM.bind m f t).2 = t
  unfold CM.bind
  rcases h : m t with ⟨r, t1⟩
  have ht1 : t1 = t := by have := hm t; rw [h] at this; exact this
  cases r with
  | ok a => rw [ht1]; exact hf a t
  | error e => exact ht1

theorem tracePure_mapM {f : α → CM β} (hf : ∀ a, TracePure (f a)) :
    ∀ l : List α, TracePure (CM.mapM f l) := by
  intro l
  induction l with
  | nil => exact fun _ => rfl
  | cons a rest ih =>
      show TracePure (CM.mapM f (a :: rest))
      unfold CM.mapM
      exact tracePure_bind (hf a)
        (fun b => tracePure_bind ih (fun bs => tracePure_pure _))

theorem tracePure_foldlM {f : β → α → CM β} (hf : ∀ b a, TracePure (f b a)) :
    ∀ (l : List α) (b : β), TracePure (CM.foldlM f b l) := by
  intro l
  induction l with
  | nil => exact fun _ _ => rfl
  | cons a rest ih =>
      intro b
      show TracePure (CM.foldlM f b (a :: rest))
      unfold CM.foldlM
      exact tracePure_bind (hf b a) (fun b' => ih b')

/-! ## Claim theorems: id-list rendering -/

/-- The rendering expression written out at both call sites equals the
amended three-way rule (comma-space separator). -/
theorem source_render_eq_amended (ids : List ℤ) :
    (if ids.length > 1 then pyTupleStr ids
     else if ids.length = 1 then "(" ++ toString ids.headI ++ ")" else "(0)")
      = amended_render_id_list ids := by
  match ids with
  | [] => rfl
  | [a] => rfl
  | a :: b :: l =>
      have h1 : (a :: b :: l).length > 1 := by simp
      have h2 : ¬ (a :: b :: l).length = 0 := by simp
      have h3 : ¬ (a :: b :: l).length = 1 := by simp
      rw [if_pos h1, amended_render_id_list, if_neg h2, if_neg h3]
      rfl

/-- C2, counterexample: the code renders two or more ids with a
comma-space separator, as Python `str(tuple)` does: selecting tables 1
and 2 yields the string `"(1, 2)"`, not the `"(id1,id2,...)"` form the
claim states. -/
theorem target_list_rendering_uses_comma_space :
    runOk (get_target_table_info connC2 2 []) = true ∧
    okValue (get_target_table_info connC2 2 []) (TargetTableInfo.mk [] "")
      = TargetTableInfo.mk [1, 2] "(1, 2)" ∧
    spec_render_id_list [1, 2] = "(1,2)" ∧
    ("(1, 2)" : String) ≠ "(1,2)" := by
  refine ⟨by decide, by decide, by decide, by decide⟩

theorem tracePure_size_row_body (index : List SqlVal) :
    TracePure (do
      let a ← pyHead index
      let b ← (match index with
               | _ :: b :: _ => CM.pure b
               | _ => CM.fail "IndexError")
      Pure.pure ([a, b] : List SqlVal)) := by
  match index with
  | [] => exact fun _ => rfl
  | [a] => exact fun _ => rfl
  | a :: b :: l => exact fun _ => rfl

theorem mapM_index_sqls_run (conn : Conn) (str : String) (t : List Ev) :
    CM.mapM (fun fs => do
        let rcf ← _cmd conn (fs.2 str)
        Pure.pure (fs.1, RawTable.mk rcf.2 rcf.1)) INDEX_STATS_SQLS t
      = (.ok [("pg_stat_user_indexes_all_fields",
            RawTable.mk (conn.query (PG_STAT_USER_INDEXES_TEMPLATE str)).2
              (conn.query (PG_STAT_USER_INDEXES_TEMPLATE str)).1),
          ("pg_statio_user_indexes_all_fields",
            RawTable.mk (conn.query (PG_STATIO_USER_INDEXES_TEMPLATE str)).2
              (conn.query (PG_STATIO_USER_INDEXES_TEMPLATE str)).1),
          ("pg_index_all_fields",
            RawTable.mk (conn.query (PG_INDEX_TEMPLATE str)).2
              (conn.query (PG_INDEX_TEMPLATE str)).1)],
        ((t ++ [Ev.fetch (PG_STAT_USER_INDEXES_TEMPLATE str)])
          ++ [Ev.fetch (PG_STATIO_USER_INDEXES_TEMPLATE str)])
          ++ [Ev.fetch (PG_INDEX_TEMPLATE str)]) := rfl

theorem CM.pure_bind (a : α) (f : α → CM β) (t : List Ev) :
    ((Pure.pure a : CM α) >>= f) t = f a t := rfl

/-- Helper: a statement-free computation leaves the trace where it
started. -/
theorem trace_of_eq {m : CM α} (hm : TracePure m) {t t' : List Ev}
    {r : Except String α} (h : m t = (r, t')) : t' = t := by
  have := hm t
  rw [h] at this
  exact this

/-- The id extraction of `collect_index_metrics`
(`tuple(index[0] for index in target_indexes_tuple)`) yields exactly
the id column of the ranking result, in input order. -/
theorem mapM_asDbId_selected_ids :
    ∀ {rows : List (List SqlVal)} {t t' : List Ev} {ids : List ℤ},
      CM.mapM (fun index => do asDbId (← pyHead index)) rows t = (.ok ids, t') →
      selected_ids rows = some ids := by
  intro rows
  induction rows with
  | nil =>
      intro t t' ids h
      obtain ⟨hn, -⟩ := run_pure_inv
        (show ((Except.ok ([] : List ℤ), t) : Except String (List ℤ) × List Ev)
          = (.ok ids, t') from h)
      rw [← hn]
      rfl
  | cons row rest ih =>
      intro t t' ids h
      unfold CM.mapM at h
      rw [CM.bind_eq_ok] at h
      obtain ⟨n, t1, h1, h⟩ := h
      rw [CM.bind_eq_ok] at h
      obtain ⟨ns, t2, h2, h⟩ := h
      obtain ⟨hc, -⟩ := run_pure_inv
        (show ((Except.ok (n :: ns), t2) : Except String (List ℤ) × List Ev)
          = (.ok ids, t') from h)
      rw [← hc]
      cases row with
      | nil =>
          exact Except.noConfusion (congrArg Prod.fst
            (show ((Except.error "IndexError", t) : Except String ℤ × List Ev)
              = (.ok n, t1) from h1))
      | cons v vrest =>
          cases v
          case int m =>
            obtain ⟨hm, -⟩ := run_pure_inv
              (show ((Except.ok m, t) : Except String ℤ × List Ev)
                = (.ok n, t1) from h1)
            subst hm
            simp [selected_ids, ih h2]
          all_goals exact Except.noConfusion (congrArg Prod.fst
            (show ((Except.error "unexpected non-integer catalog id", t) :
              Except String ℤ × List Ev) = (.ok n, t1) from h1))

/-- C2, amended: the three-way rule holds with a comma-space separator
for two or more ids (`"(id1, id2, ...)"`, as Python `str(tuple)`
renders): `get_target_table_info` returns exactly that rendering of its
selected ids, and `collect_index_metrics` formats its three per-index
statements with that rendering of the selected index ids. -/
theorem target_list_rendering_amended :
    (∀ (conn : Conn) (n : ℤ) (t : List Ev) (out : TargetTableInfo) (tr : List Ev),
        get_target_table_info conn n t = (.ok out, tr) →
        out.target_tables_str = amended_render_id_list out.target_tables) ∧
    (∀ (conn : Conn) (info : TargetTableInfo) (n : ℤ) (t : List Ev)
        (out : List (String × RawTable)) (tr : List Ev),
        collect_index_metrics conn info n t = (.ok out, tr) →
        ∃ ids : List ℤ,
          selected_ids
              (conn.query (TOP_N_LARGEST_INDEXES_SQL_TEMPLATE info.target_tables_str n)).1
            = some ids ∧
          tr = t ++ [Ev.fetch (TOP_N_LARGEST_INDEXES_SQL_TEMPLATE info.target_tables_str n),
                     Ev.fetch (PG_STAT_USER_INDEXES_TEMPLATE (amended_render_id_list ids)),
                     Ev.fetch (PG_STATIO_USER_INDEXES_TEMPLATE (amended_render_id_list ids)),
                     Ev.fetch (PG_INDEX_TEMPLATE (amended_render_id_list ids))]) := by
  constructor
  · intro conn n t out tr h
    unfold get_target_table_info at h
    rw [CM.bind_eq_ok] at h
    obtain ⟨rc, t1, h1, h⟩ := h
    rw [CM.bind_eq_ok] at h
    obtain ⟨ids, t2, h2, h⟩ := h
    simp only [CM.pure_run, Prod.mk.injEq, Except.ok.injEq] at h
    obtain ⟨h3, h4⟩ := h
    subst h3
    rw [source_render_eq_amended]
  · intro conn info n t out tr h
    unfold collect_index_metrics at h
    simp only [source_render_eq_amended] at h
    rw [CM.bind_eq_ok] at h
    obtain ⟨rc, t1, h1, h⟩ := h
    rw [_cmd_run, Prod.mk.injEq, Except.ok.injEq] at h1
    obtain ⟨hrc, ht1⟩ := h1
    subst hrc; subst ht1
    rw [CM.bind_eq_ok] at h
    obtain ⟨ids, t2, h2, h⟩ := h
    have ht2 := trace_of_eq (tracePure_mapM
      (fun table => tracePure_bind (tracePure_pyHead table)
        (fun v => tracePure_asDbId v)) _) h2
    subst ht2
    rw [CM.bind_eq_ok] at h
    obtain ⟨ms, t3, h3, h⟩ := h
    rw [mapM_index_sqls_run, Prod.mk.injEq, Except.ok.injEq] at h3
    obtain ⟨hms, ht3⟩ := h3
    subst hms; subst ht3
    split at h
    · rw [CM.pure_bind, CM.pure_run, Prod.mk.injEq, Except.ok.injEq] at h
      obtain ⟨hout, htr⟩ := h
      subst htr
      exact ⟨ids, mapM_asDbId_selected_ids h2, by simp [List.append_assoc]⟩
    · rw [CM.bind_eq_ok] at h
      obtain ⟨sz, t4, h4, h⟩ := h
      have ht4 := trace_of_eq
        (tracePure_mapM (fun index => tracePure_size_row_body index) _) h4
      subst ht4
      rw [CM.pure_run, Prod.mk.injEq, Except.ok.injEq] at h
      obtain ⟨hout, htr⟩ := h
      subst htr
      exact ⟨ids, mapM_asDbId_selected_ids h2, by simp [List.append_assoc]⟩

theorem target_list_rendering_amended_witness :
    (get_target_table_info connC2 2 []
        = (.ok (TargetTableInfo.mk [1, 2] "(1, 2)"),
           [Ev.fetch (TOP_N_LARGEST_TABLES_SQL_TEMPLATE 2)]) ∧
      (TargetTableInfo.mk [1, 2] "(1, 2)").target_tables_str
        = amended_render_id_list (TargetTableInfo.mk [1, 2] "(1, 2)").target_tables) ∧
    (collect_index_metrics connC2 (TargetTableInfo.mk [1, 2] "(1, 2)") 2 []
        = (.ok [("pg_stat_user_indexes_all_fields", RawTable.mk ["c"] [[.int 1]]),
                ("pg_statio_user_indexes_all_fields", RawTable.mk ["c"] [[.int 1]]),
                ("pg_index_all_fields", RawTable.mk ["c"] [[.int 1]]),
                ("indexes_size", RawTable.mk ["indexrelid", "index_size"]
                  [[.int 11, .int 100], [.int 12, .int 200]])],
           [Ev.fetch (TOP_N_LARGEST_INDEXES_SQL_TEMPLATE "(1, 2)" 2),
            Ev.fetch (PG_STAT_USER_INDEXES_TEMPLATE "(11, 12)"),
            Ev.fetch (PG_STATIO_USER_INDEXES_TEMPLATE "(11, 12)"),
            Ev.fetch (PG_INDEX_TEMPLATE "(11, 12)")]) ∧
      ∃ ids : List ℤ,
        selected_ids
            (connC2.query (TOP_N_LARGEST_INDEXES_SQL_TEMPLATE
              (TargetTableInfo.mk [1, 2] "(1, 2)").target_tables_str 2)).1
          = some ids ∧
        ([Ev.fetch (TOP_N_LARGEST_INDEXES_SQL_TEMPLATE "(1, 2)" 2),
          Ev.fetch (PG_STAT_USER_INDEXES_TEMPLATE "(11, 12)"),
          Ev.fetch (PG_STATIO_USER_INDEXES_TEMPLATE "(11, 12)"),
          Ev.fetch (PG_INDEX_TEMPLATE "(11, 12)")] : List Ev)
          = [] ++ [Ev.fetch (TOP_N_LARGEST_INDEXES_SQL_TEMPLATE
                     (TargetTableInfo.mk [1, 2] "(1, 2)").target_tables_str 2),
                   Ev.fetch (PG_STAT_USER_INDEXES_TEMPLATE (amended_render_id_list ids)),
                   Ev.fetch (PG_STATIO_USER_INDEXES_TEMPLATE (amended_render_id_list ids)),
                   Ev.fetch (PG_INDEX_TEMPLATE (amended_render_id_list ids))]) :=
  ⟨⟨by decide,
    target_list_rendering_amended.1 connC2 2 [] (TargetTableInfo.mk [1, 2] "(1, 2)")
      [Ev.fetch (TOP_N_LARGEST_TABLES_SQL_TEMPLATE 2)] (by decide)⟩,
   ⟨by decide,
    target_list_rendering_amended.2 connC2 (TargetTableInfo.mk [1, 2] "(1, 2)") 2 []
      [("pg_stat_user_indexes_all_fields", RawTable.mk ["c"] [[.int 1]]),
       ("pg_statio_user_indexes_all_fields", RawTable.mk ["c"] [[.int 1]]),
       ("pg_index_all_fields", RawTable.mk ["c"] [[.int 1]]),
       ("indexes_size", RawTable.mk ["indexrelid", "index_size"]
         [[.int 11, .int 100], [.int 12, .int 200]])]
      [Ev.fetch (TOP_N_LARGEST_INDEXES_SQL_TEMPLATE "(1, 2)" 2),
       Ev.fetch (PG_STAT_USER_INDEXES_TEMPLATE "(11, 12)"),
       Ev.fetch (PG_STATIO_USER_INDEXES_TEMPLATE "(11, 12)"),
       Ev.fetch (PG_INDEX_TEMPLATE "(11, 12)")] (by decide)⟩⟩

/-! ## Per-section run lemmas for the two collection cycles -/

theorem _get_metrics_run (conn : Conn) (q : String) (t : List Ev) :
    _get_metrics conn q t
      = (.ok (getMetricsRows (conn.query q).1 (conn.query q).2), t ++ [Ev.fetch q]) := rfl

theorem logEv_run (e : Ev) (t : List Ev) : logEv e t = (.ok (), t ++ [e]) := rfl

theorem _cmd_wo_fetch_ok {conn : Conn} {sql : String} {t t' : List Ev} {u : Unit}
    (h : _cmd_wo_fetch conn sql t = (.ok u, t')) : t' = t ++ [Ev.exec sql] := by
  unfold _cmd_wo_fetch at h
  rw [CM.bind_eq_ok] at h
  obtain ⟨w, t1, h1, h⟩ := h
  rw [logEv_run, Prod.mk.injEq] at h1
  obtain ⟨-, ht1⟩ := h1
  subst ht1
  split at h
  · rw [CM.pure_run, Prod.mk.injEq] at h
    exact h.2.symm
  · exact absurd (congrArg Prod.fst h) (by simp [CM.fail])

theorem CM.mapM_ok_forall {f : α → CM β} {P : β → Prop}
    (hf : ∀ a t b t', f a t = (.ok b, t') → P b) :
    ∀ {l : List α} {t : List Ev} {bs : List β} {t' : List Ev},
      CM.mapM f l t = (.ok bs, t') → ∀ b ∈ bs, P b := by
  intro l
  induction l with
  | nil =>
      intro t bs t' h b hb
      have h' : ((Except.ok ([] : List β), t) : Except String (List β) × List Ev)
          = (.ok bs, t') := h
      injection h' with h1 h2
      injection h1 with h1
      subst h1
      cases hb
  | cons a rest ih =>
      intro t bs t' h b hb
      unfold CM.mapM at h
      rw [CM.bind_eq_ok] at h
      obtain ⟨x, t1, h1, h⟩ := h
      rw [CM.bind_eq_ok] at h
      obtain ⟨xs, t2, h2, h⟩ := h
      have h' : ((Except.ok (x :: xs), t2) : Except String (List β) × List Ev)
          = (.ok bs, t') := h
      injection h' with hb1 hb2
      injection hb1 with hb1
      subst hb1
      rcases List.mem_cons.mp hb with rfl | hmem
      · exact hf _ _ _ _ h1
      · exact ih h2 b hmem

/-- The `bgwriter` step (tagged shape): one fetch, measurement
`bgwriter`. -/
theorem influx_bgwriter_ok {conn : Conn} {t t' : List Ev} {v : InfluxMetric}
    (h : influx_bgwriter conn t = (.ok v, t')) :
    t' = t ++ [Ev.fetch BGWRITER_SQL] ∧ v.measurement = "bgwriter" := by
  unfold influx_bgwriter at h
  rw [CM.bind_eq_ok] at h
  obtain ⟨rows, t1, h1, h⟩ := h
  rw [_get_metrics_run, Prod.mk.injEq, Except.ok.injEq] at h1
  obtain ⟨hrows, ht1⟩ := h1
  subst hrows; subst ht1
  rw [CM.bind_eq_ok] at h
  obtain ⟨u, t2, h2, h⟩ := h
  have ht2 : t2 = t ++ [Ev.fetch BGWRITER_SQL] :=
    trace_of_eq (by unfold pyAssert; split; exacts [tracePure_pure _, tracePure_fail _]) h2
  subst ht2
  rw [CM.bind_eq_ok] at h
  obtain ⟨r0, t3, h3, h⟩ := h
  have ht3 : t3 = t ++ [Ev.fetch BGWRITER_SQL] := trace_of_eq (tracePure_pyHead _) h3
  subst ht3
  rw [CM.pure_run, Prod.mk.injEq, Except.ok.injEq] at h
  obtain ⟨hv, htr⟩ := h
  subst htr
  exact ⟨rfl, by rw [← hv]⟩

/-- The `access` step (tagged shape): two fetches, measurement
`access`. -/
theorem influx_access_ok {conn : Conn} {t t' : List Ev} {v : InfluxMetric}
    (h : influx_access conn t = (.ok v, t')) :
    t' = (t ++ [Ev.fetch TABLE_STAT]) ++ [Ev.fetch INDEX_STAT] ∧
      v.measurement = "access" := by
  unfold influx_access at h
  rw [CM.bind_eq_ok] at h
  obtain ⟨rows, t1, h1, h⟩ := h
  rw [_get_metrics_run, Prod.mk.injEq, Except.ok.injEq] at h1
  obtain ⟨hrows, ht1⟩ := h1
  subst hrows; subst ht1
  rw [CM.bind_eq_ok] at h
  obtain ⟨r0, t2, h2, h⟩ := h
  have ht2 := trace_of_eq (tracePure_pyHead _) h2
  subst ht2
  rw [CM.bind_eq_ok] at h
  obtain ⟨rows2, t3, h3, h⟩ := h
  rw [_get_metrics_run, Prod.mk.injEq, Except.ok.injEq] at h3
  obtain ⟨hrows2, ht3⟩ := h3
  subst hrows2; subst ht3
  rw [CM.bind_eq_ok] at h
  obtain ⟨r1, t4, h4, h⟩ := h
  have ht4 := trace_of_eq (tracePure_pyHead _) h4
  subst ht4
  rw [CM.pure_run, Prod.mk.injEq, Except.ok.injEq] at h
  obtain ⟨hv, htr⟩ := h
  subst htr
  exact ⟨rfl, by rw [← hv]⟩

/-- The `io` step (tagged shape): two fetches, measurement `io`. -/
theorem influx_io_step_ok {conn : Conn} {t t' : List Ev} {v : InfluxMetric}
    (h : influx_io_step conn t = (.ok v, t')) :
    t' = (t ++ [Ev.fetch TABLE_STATIO]) ++ [Ev.fetch INDEX_STATIO] ∧
      v.measurement = "io" := by
  unfold influx_io_step at h
  rw [CM.bind_eq_ok] at h
  obtain ⟨rows, t1, h1, h⟩ := h
  rw [_get_metrics_run, Prod.mk.injEq, Except.ok.injEq] at h1
  obtain ⟨hrows, ht1⟩ := h1
  subst hrows; subst ht1
  rw [CM.bind_eq_ok] at h
  obtain ⟨r0, t2, h2, h⟩ := h
  have ht2 := trace_of_eq (tracePure_pyHead _) h2
  subst ht2
  rw [CM.bind_eq_ok] at h
  obtain ⟨rows2, t3, h3, h⟩ := h
  rw [_get_metrics_run, Prod.mk.injEq, Except.ok.injEq] at h3
  obtain ⟨hrows2, ht3⟩ := h3
  subst hrows2; subst ht3
  rw [CM.bind_eq_ok] at h
  obtain ⟨r1, t4, h4, h⟩ := h
  have ht4 := trace_of_eq (tracePure_pyHead _) h4
  subst ht4
  rw [CM.pure_run, Prod.mk.injEq, Except.ok.injEq] at h
  obtain ⟨hv, htr⟩ := h
  subst htr
  exact ⟨rfl, by rw [← hv]⟩

theorem CM.pure_run' (a : α) (t : List Ev) : CM.pure a t = (.ok a, t) := rfl

/-- Success characterization of a two-element `CM.mapM` (the
database-views loops iterate over exactly two views). -/
theorem CM.mapM_pair_ok {f : String → CM α} {v1 v2 : String} {t tr : List Ev}
    {bs : List α} (h : CM.mapM f [v1, v2] t = (.ok bs, tr)) :
    ∃ b1 b2 t1, f v1 t = (.ok b1, t1) ∧ f v2 t1 = (.ok b2, tr) ∧ bs = [b1, b2] := by
  simp only [CM.mapM] at h
  rw [CM.bind_eq_ok] at h
  obtain ⟨b1, t1, h1, h⟩ := h
  rw [CM.bind_eq_ok] at h
  obtain ⟨rest1, t2, h2, h⟩ := h
  rw [CM.bind_eq_ok] at h2
  obtain ⟨b2, t3, h3, h2⟩ := h2
  rw [CM.bind_eq_ok] at h2
  obtain ⟨nilv, t4, h4, h2⟩ := h2
  obtain ⟨hn, ht4⟩ := run_pure_inv
    (show ((Except.ok ([] : List α), t3) : Except String (List α) × List Ev)
      = (.ok nilv, t4) from h4)
  subst hn; subst ht4
  obtain ⟨hr1, ht2⟩ := run_pure_inv
    (show ((Except.ok [b2], t3) : Except String (List α) × List Ev)
      = (.ok rest1, t2) from h2)
  subst hr1; subst ht2
  obtain ⟨hbs, htr⟩ := run_pure_inv
    (show ((Except.ok [b1, b2], t3) : Except String (List α) × List Ev)
      = (.ok bs, tr) from h)
  subst htr
  exact ⟨b1, b2, t1, h1, h3, hbs.symm⟩

/-- Every record a successful view-row loop produces carries the
measurement fixed by the view. -/
theorem view_rows_measurements {conn : Conn} (view nm : String)
    (hnm : (if view = "pg_stat_database" then "database_statistics" else pyLastPart view) = nm)
    {t tr : List Ev} {r : List InfluxMetric}
    (h : (_get_metrics conn ("SELECT * FROM " ++ view ++ ";") >>= fun rows =>
        CM.mapM (fun row => do
          let tagv ← pyGetKey row "datid"
          Pure.pure (InfluxMetric.mk
            (if view = "pg_stat_database" then "database_statistics" else pyLastPart view)
            (some [("datid", tagv)])
            (if dictContains (dictDel row "datid") "stats_reset" = true then
               dictDel (dictDel row "datid") "stats_reset"
             else dictDel row "datid"))) rows) t = (.ok r, tr)) :
    tr = t ++ [Ev.fetch ("SELECT * FROM " ++ view ++ ";")] ∧
    ∀ b ∈ r, b.measurement = nm := by
  rw [CM.bind_eq_ok] at h
  obtain ⟨rows, t1, h1, h⟩ := h
  rw [_get_metrics_run, Prod.mk.injEq, Except.ok.injEq] at h1
  obtain ⟨hrows, ht1⟩ := h1
  subst hrows; subst ht1
  have htr := trace_of_eq (tracePure_mapM
    (fun row => tracePure_bind (tracePure_pyGetKey _ _) (fun tagv => tracePure_pure _)) _) h
  subst htr
  refine ⟨rfl, ?_⟩
  refine CM.mapM_ok_forall ?_ h
  intro row tx b tx' hb
  rw [CM.bind_eq_ok] at hb
  obtain ⟨tagv, ty, hb1, hb⟩ := hb
  obtain ⟨hbv, -⟩ := run_pure_inv
    (show ((Except.ok (InfluxMetric.mk _ _ _), ty) : Except String InfluxMetric × List Ev)
      = (.ok b, tx') from hb)
  rw [← hbv, ← hnm]

theorem map_measurement_replicate {r : List InfluxMetric} {nm : String}
    (hp : ∀ b ∈ r, b.measurement = nm) :
    r.map (fun m => m.measurement) = List.replicate r.length nm := by
  calc r.map (fun m => m.measurement)
      = List.replicate (r.map (fun m => m.measurement)).length nm := by
        refine List.eq_replicate_length.mpr ?_
        intro b hb
        obtain ⟨m, hm', rfl⟩ := List.mem_map.mp hb
        exact hp m hm'
    _ = List.replicate r.length nm := by rw [List.length_map]

/-- The raw database-views step (tagged shape): two fetches; every
record of the first view is measured `database_statistics`, every
record of the second `conflicts`. -/
theorem influx_database_ok {conn : Conn} {t t' : List Ev} {v : List InfluxMetric}
    (h : influx_database conn t = (.ok v, t')) :
    t' = (t ++ [Ev.fetch PG_STAT_DATABASE_SQL]) ++ [Ev.fetch PG_STAT_DATABASE_CONFLICTS_SQL] ∧
    ∃ n1 n2 : ℕ, v.map (fun m => m.measurement)
        = List.replicate n1 "database_statistics" ++ List.replicate n2 "conflicts" := by
  unfold influx_database at h
  simp only [PG_STAT_VIEWS_LOCAL_RAW_database] at h
  rw [CM.bind_eq_ok] at h
  obtain ⟨rss, tm, hm, h⟩ := h
  obtain ⟨r1, r2, t1, hv1, hv2, hbs⟩ := CM.mapM_pair_ok hm
  subst hbs
  rw [CM.pure_run, Prod.mk.injEq, Except.ok.injEq] at h
  obtain ⟨hv, ht'⟩ := h
  subst ht'
  obtain ⟨ht1, hp1⟩ := view_rows_measurements
    "pg_stat_database" "database_statistics" (by decide) hv1
  subst ht1
  obtain ⟨ht2, hp2⟩ := view_rows_measurements
    "pg_stat_database_conflicts" "conflicts" (by decide) hv2
  subst ht2
  refine ⟨rfl, r1.length, r2.length, ?_⟩
  rw [← hv]
  simp only [List.flatten, List.flatten_nil, List.append_nil, List.map_append]
  rw [map_measurement_replicate hp1, map_measurement_replicate hp2]

/-- A fold whose body always records exactly one fetch of its element
appends the fetches of the list, in order. -/
theorem CM.foldlM_fetch_trace {f : β → String → CM β}
    (hf : ∀ b q t, ((f b q) t).2 = t ++ [Ev.fetch q]) :
    ∀ (l : List String) (b : β) {t tr : List Ev} {r : β},
      CM.foldlM f b l t = (.ok r, tr) → tr = t ++ l.map Ev.fetch := by
  intro l
  induction l with
  | nil =>
      intro b t tr r h
      obtain ⟨-, ht⟩ := run_pure_inv
        (show ((Except.ok b, t) : Except String β × List Ev) = (.ok r, tr) from h)
      rw [← ht, List.map_nil, List.append_nil]
  | cons q rest ih =>
      intro b t tr r h
      unfold CM.foldlM at h
      rw [CM.bind_eq_ok] at h
      obtain ⟨b', t1, h1, h⟩ := h
      have ht1 : t1 = t ++ [Ev.fetch q] := by
        have := hf b q t
        rw [h1] at this
        exact this
      subst ht1
      rw [ih  _ h, List.map_cons]
      simp [List.append_assoc]

/-- The body of a `sessions` fold records exactly the fetch of its
query. -/
theorem sessions_body_trace (conn : Conn) (fields : Row) (q : String) (t : List Ev) :
    ((do
      let rc ← _cmd conn q
      let row0 ← pyHead rc.1
      let v ← pyHead row0
      let m0 ← pyHead rc.2
      let n ← toPyInt v
      Pure.pure (dictSet fields m0 (SqlVal.int n)) : CM Row) t).2
      = t ++ [Ev.fetch q] := by
  show (CM.bind (_cmd conn q) _ t).2 = t ++ [Ev.fetch q]
  unfold CM.bind
  have hc : _cmd conn q t = (.ok (conn.query q), t ++ [Ev.fetch q]) := rfl
  rw [hc]
  exact tracePure_bind (tracePure_pyHead _)
    (fun row0 => tracePure_bind (tracePure_pyHead _)
      (fun v => tracePure_bind (tracePure_pyHead _)
        (fun m0 => tracePure_bind (tracePure_toPyInt _)
          (fun n => tracePure_pure _)))) _

/-- The `sessions` step (tagged shape): the five activity fetches in
order, measurement `sessions`. -/
theorem influx_sessions_ok {conn : Conn} {t t' : List Ev} {v : InfluxMetric}
    (h : influx_sessions conn t = (.ok v, t')) :
    t' = t ++ ACTIVITY_QUERIES.map Ev.fetch ∧ v.measurement = "sessions" := by
  unfold influx_sessions at h
  rw [CM.bind_eq_ok] at h
  obtain ⟨fields, t1, h1, h⟩ := h
  have ht1 := CM.foldlM_fetch_trace
    (fun b q t => sessions_body_trace conn b q t) ACTIVITY_QUERIES [] h1
  subst ht1
  obtain ⟨hv, ht⟩ := run_pure_inv
    (show ((Except.ok (InfluxMetric.mk "sessions" none fields), _) :
      Except String InfluxMetric × List Ev) = (.ok v, t') from h)
  rw [← ht, ← hv]
  exact ⟨rfl, rfl⟩

/-- The `active_sessions` step (tagged shape): one fetch, measurement
`active_sessions`. -/
theorem influx_active_sessions_ok {conn : Conn} {t t' : List Ev} {v : InfluxMetric}
    (h : influx_active_sessions conn t = (.ok v, t')) :
    t' = t ++ [Ev.fetch STATE_GROUP_SQL] ∧ v.measurement = "active_sessions" := by
  unfold influx_active_sessions at h
  rw [CM.bind_eq_ok] at h
  obtain ⟨rows, t1, h1, h⟩ := h
  rw [_get_metrics_run, Prod.mk.injEq, Except.ok.injEq] at h1
  obtain ⟨hrows, ht1⟩ := h1
  subst hrows; subst ht1
  rw [CM.bind_eq_ok] at h
  obtain ⟨fields, t2, h2, h⟩ := h
  have ht2 := trace_of_eq (tracePure_foldlM (fun b row =>
    tracePure_bind (tracePure_pyGetKey _ _) (fun sv =>
      tracePure_bind (tracePure_asPyStr _) (fun s =>
        tracePure_bind (tracePure_pyGetKey _ _) (fun cv => tracePure_pure _)))) _ _) h2
  subst ht2
  obtain ⟨hv, ht⟩ := run_pure_inv
    (show ((Except.ok (InfluxMetric.mk "active_sessions" none fields), _) :
      Except String InfluxMetric × List Ev) = (.ok v, t') from h)
  rw [← ht, ← hv]
  exact ⟨rfl, rfl⟩

/-- The `waiting_sessions` step (tagged shape): one fetch, measurement
`waiting_sessions`. -/
theorem influx_waiting_sessions_ok {conn : Conn} {t t' : List Ev} {v : InfluxMetric}
    (h : influx_waiting_sessions conn t = (.ok v, t')) :
    t' = t ++ [Ev.fetch WAIT_GROUP_SQL] ∧ v.measurement = "waiting_sessions" := by
  unfold influx_waiting_sessions at h
  rw [CM.bind_eq_ok] at h
  obtain ⟨rows, t1, h1, h⟩ := h
  rw [_get_metrics_run, Prod.mk.injEq, Except.ok.injEq] at h1
  obtain ⟨hrows, ht1⟩ := h1
  subst hrows; subst ht1
  rw [CM.bind_eq_ok] at h
  obtain ⟨fields, t2, h2, h⟩ := h
  have ht2 := trace_of_eq (tracePure_foldlM (fun b row =>
    tracePure_bind (tracePure_pyGetKey _ _) (fun wv =>
      tracePure_bind (tracePure_asPyStr _) (fun w =>
        tracePure_bind (tracePure_pyGetKey _ _) (fun cv => tracePure_pure _)))) _ _) h2
  subst ht2
  obtain ⟨hv, ht⟩ := run_pure_inv
    (show ((Except.ok (InfluxMetric.mk "waiting_sessions" none fields), _) :
      Except String InfluxMetric × List Ev) = (.ok v, t') from h)
  rw [← ht, ← hv]
  exact ⟨rfl, rfl⟩

/-- The extension bootstrap: one catalog check, then possibly a
best-effort install (exec + commit on success, exec + rollback on
failure, which reports `false`). -/
theorem _load_stat_statements_ok {conn : Conn} {t t' : List Ev} {success : Bool}
    (h : _load_stat_statements conn t = (.ok success, t')) :
    (success = true ∧ t' = t ++ [Ev.fetch CHECK_MODULE_SQL]) ∨
    (success = true ∧
      t' = ((t ++ [Ev.fetch CHECK_MODULE_SQL]) ++ [Ev.exec LOAD_MODULE_SQL]) ++ [Ev.commit]) ∨
    (success = false ∧
      t' = ((t ++ [Ev.fetch CHECK_MODULE_SQL]) ++ [Ev.exec LOAD_MODULE_SQL]) ++ [Ev.rollback]) := by
  unfold _load_stat_statements at h
  rw [CM.bind_eq_ok] at h
  obtain ⟨rc, t1, h1, h⟩ := h
  rw [_cmd_run, Prod.mk.injEq, Except.ok.injEq] at h1
  obtain ⟨hrc, ht1⟩ := h1
  subst hrc; subst ht1
  rw [CM.bind_eq_ok] at h
  obtain ⟨row0, t2, h2, h⟩ := h
  have ht2 := trace_of_eq (tracePure_pyHead _) h2
  subst ht2
  rw [CM.bind_eq_ok] at h
  obtain ⟨v0, t3, h3, h⟩ := h
  have ht3 := trace_of_eq (tracePure_pyHead _) h3
  subst ht3
  split at h
  · obtain ⟨hs, ht⟩ := run_pure_inv
      (show ((Except.ok true, _) : Except String Bool × List Ev) = (.ok success, t') from h)
    exact Or.inl ⟨hs.symm, ht.symm⟩
  · rw [CM.bind_eq_ok] at h
    obtain ⟨u, t4, h4, h⟩ := h
    rw [logEv_run, Prod.mk.injEq] at h4
    obtain ⟨-, ht4⟩ := h4
    subst ht4
    split at h
    · rw [CM.bind_eq_ok] at h
      obtain ⟨u2, t5, h5, h⟩ := h
      rw [logEv_run, Prod.mk.injEq] at h5
      obtain ⟨-, ht5⟩ := h5
      subst ht5
      obtain ⟨hs, ht⟩ := run_pure_inv
        (show ((Except.ok true, _) : Except String Bool × List Ev) = (.ok success, t') from h)
      exact Or.inr (Or.inl ⟨hs.symm, ht.symm⟩)
    · rw [CM.bind_eq_ok] at h
      obtain ⟨u2, t5, h5, h⟩ := h
      rw [logEv_run, Prod.mk.injEq] at h5
      obtain ⟨-, ht5⟩ := h5
      subst ht5
      obtain ⟨hs, ht⟩ := run_pure_inv
        (show ((Except.ok false, _) : Except String Bool × List Ev) = (.ok success, t') from h)
      exact Or.inr (Or.inr ⟨hs.symm, ht.symm⟩)

/-- The query-statistics source: three possible interaction suffixes —
extension present (read then statements-reset), extension installed on
the fly (install, commit, read, statements-reset), or install failure
(rollback and an empty result, no statements-reset and no read). -/
theorem _get_stat_statements_ok {conn : Conn} {t t' : List Ev} {rows : List Row}
    (h : _get_stat_statements conn t = (.ok rows, t')) :
    t' = ((t ++ [Ev.fetch CHECK_MODULE_SQL]) ++ [Ev.fetch PG_STAT_STATEMENTS_EDA_SQL])
        ++ [Ev.exec RESET_STATEMENTS_SQL] ∨
    t' = ((((t ++ [Ev.fetch CHECK_MODULE_SQL]) ++ [Ev.exec LOAD_MODULE_SQL]) ++ [Ev.commit])
        ++ [Ev.fetch PG_STAT_STATEMENTS_EDA_SQL]) ++ [Ev.exec RESET_STATEMENTS_SQL] ∨
    (t' = ((t ++ [Ev.fetch CHECK_MODULE_SQL]) ++ [Ev.exec LOAD_MODULE_SQL]) ++ [Ev.rollback]
      ∧ rows = []) := by
  unfold _get_stat_statements at h
  rw [CM.bind_eq_ok] at h
  obtain ⟨success, t1, h1, h⟩ := h
  rcases _load_stat_statements_ok h1 with ⟨hs, ht1⟩ | ⟨hs, ht1⟩ | ⟨hs, ht1⟩ <;> subst hs <;> subst ht1
  · rw [if_pos rfl] at h
    rw [CM.bind_eq_ok] at h
    obtain ⟨res, t2, h2, h⟩ := h
    rw [_get_metrics_run, Prod.mk.injEq, Except.ok.injEq] at h2
    obtain ⟨hres, ht2⟩ := h2
    subst hres; subst ht2
    rw [CM.bind_eq_ok] at h
    obtain ⟨u, t3, h3, h⟩ := h
    rw [logEv_run, Prod.mk.injEq] at h3
    obtain ⟨-, ht3⟩ := h3
    subst ht3
    obtain ⟨hr, ht⟩ := run_pure_inv
      (show ((Except.ok (getMetricsRows _ _), _) :
        Except String (List Row) × List Ev) = (.ok rows, t') from h)
    exact Or.inl ht.symm
  · rw [if_pos rfl] at h
    rw [CM.bind_eq_ok] at h
    obtain ⟨res, t2, h2, h⟩ := h
    rw [_get_metrics_run, Prod.mk.injEq, Except.ok.injEq] at h2
    obtain ⟨hres, ht2⟩ := h2
    subst hres; subst ht2
    rw [CM.bind_eq_ok] at h
    obtain ⟨u, t3, h3, h⟩ := h
    rw [logEv_run, Prod.mk.injEq] at h3
    obtain ⟨-, ht3⟩ := h3
    subst ht3
    obtain ⟨hr, ht⟩ := run_pure_inv
      (show ((Except.ok (getMetricsRows _ _), _) :
        Except String (List Row) × List Ev) = (.ok rows, t') from h)
    exact Or.inr (Or.inl ht.symm)
  · rw [if_neg (by simp)] at h
    obtain ⟨hr, ht⟩ := run_pure_inv
      (show ((Except.ok ([] : List Row), _) :
        Except String (List Row) × List Ev) = (.ok rows, t') from h)
    exact Or.inr (Or.inr ⟨ht.symm, hr.symm⟩)

/-- The `bgwriter` step (table shape). -/
theorem pg_bgwriter_ok {conn : Conn} {t t' : List Ev} {v : PgMetric}
    (h : pg_bgwriter conn t = (.ok v, t')) :
    t' = t ++ [Ev.fetch BGWRITER_SQL] ∧ v.table = "bgwriter" := by
  unfold pg_bgwriter at h
  rw [CM.bind_eq_ok] at h
  obtain ⟨rows, t1, h1, h⟩ := h
  rw [_get_metrics_run, Prod.mk.injEq, Except.ok.injEq] at h1
  obtain ⟨hrows, ht1⟩ := h1
  subst hrows; subst ht1
  rw [CM.bind_eq_ok] at h
  obtain ⟨u, t2, h2, h⟩ := h
  have ht2 : t2 = t ++ [Ev.fetch BGWRITER_SQL] :=
    trace_of_eq (by unfold pyAssert; split; exacts [tracePure_pure _, tracePure_fail _]) h2
  subst ht2
  rw [CM.bind_eq_ok] at h
  obtain ⟨r0, t3, h3, h⟩ := h
  have ht3 := trace_of_eq (tracePure_pyHead _) h3
  subst ht3
  obtain ⟨hv, ht⟩ := run_pure_inv
    (show ((Except.ok (PgMetric.mk "bgwriter" _), _) :
      Except String PgMetric × List Ev) = (.ok v, t') from h)
  rw [← ht, ← hv]
  exact ⟨rfl, rfl⟩

/-- One database view of the table shape: one fetch, one record named
by the view. -/
theorem pg_view_ok {conn : Conn} (view nm : String)
    (hnm : (if view = "pg_stat_database" then "database_statistics" else pyLastPart view) = nm)
    {t tr : List Ev} {b : PgMetric}
    (h : (_get_metrics conn ("SELECT * FROM " ++ view ++ ";") >>= fun rows =>
        Pure.pure (PgMetric.mk
          (if view = "pg_stat_database" then "database_statistics" else pyLastPart view)
          (PgData.many (rows.map (fun row =>
            if dictContains row "stats_reset" = true then dictDel row "stats_reset"
            else row))))) t = (.ok b, tr)) :
    tr = t ++ [Ev.fetch ("SELECT * FROM " ++ view ++ ";")] ∧ b.table = nm := by
  rw [CM.bind_eq_ok] at h
  obtain ⟨rows, t1, h1, h⟩ := h
  rw [_get_metrics_run, Prod.mk.injEq, Except.ok.injEq] at h1
  obtain ⟨hrows, ht1⟩ := h1
  subst hrows; subst ht1
  obtain ⟨hv, ht⟩ := run_pure_inv
    (show ((Except.ok (PgMetric.mk _ _), _) :
      Except String PgMetric × List Ev) = (.ok b, tr) from h)
  rw [← ht, ← hv, ← hnm]
  exact ⟨rfl, rfl⟩

/-- The raw database-views step (table shape): two fetches, exactly the
records `database_statistics` and `conflicts`, in order. -/
theorem pg_database_ok {conn : Conn} {t t' : List Ev} {v : List PgMetric}
    (h : pg_database conn t = (.ok v, t')) :
    t' = (t ++ [Ev.fetch PG_STAT_DATABASE_SQL]) ++ [Ev.fetch PG_STAT_DATABASE_CONFLICTS_SQL] ∧
    v.map (fun m => m.table) = ["database_statistics", "conflicts"] := by
  unfold pg_database at h
  simp only [PG_STAT_VIEWS_LOCAL_RAW_database] at h
  obtain ⟨b1, b2, t1, h1, h2, hbs⟩ := CM.mapM_pair_ok h
  subst hbs
  obtain ⟨ht1, hb1⟩ := pg_view_ok
    "pg_stat_database" "database_statistics" (by decide) h1
  subst ht1
  obtain ⟨ht2, hb2⟩ := pg_view_ok
    "pg_stat_database_conflicts" "conflicts" (by decide) h2
  subst ht2
  refine ⟨rfl, ?_⟩
  simp [hb1, hb2]

/-- The `access` step (table shape). -/
theorem pg_access_ok {conn : Conn} {t t' : List Ev} {v : PgMetric}
    (h : pg_access conn t = (.ok v, t')) :
    t' = (t ++ [Ev.fetch TABLE_STAT]) ++ [Ev.fetch INDEX_STAT] ∧ v.table = "access" := by
  unfold pg_access at h
  rw [CM.bind_eq_ok] at h
  obtain ⟨rows, t1, h1, h⟩ := h
  rw [_get_metrics_run, Prod.mk.injEq, Except.ok.injEq] at h1
  obtain ⟨hrows, ht1⟩ := h1
  subst hrows; subst ht1
  rw [CM.bind_eq_ok] at h
  obtain ⟨r0, t2, h2, h⟩ := h
  have ht2 := trace_of_eq (tracePure_pyHead _) h2
  subst ht2
  rw [CM.bind_eq_ok] at h
  obtain ⟨rows2, t3, h3, h⟩ := h
  rw [_get_metrics_run, Prod.mk.injEq, Except.ok.injEq] at h3
  obtain ⟨hrows2, ht3⟩ := h3
  subst hrows2; subst ht3
  rw [CM.bind_eq_ok] at h
  obtain ⟨r1, t4, h4, h⟩ := h
  have ht4 := trace_of_eq (tracePure_pyHead _) h4
  subst ht4
  obtain ⟨hv, ht⟩ := run_pure_inv
    (show ((Except.ok (PgMetric.mk "access" _), _) :
      Except String PgMetric × List Ev) = (.ok v, t') from h)
  rw [← ht, ← hv]
  exact ⟨rfl, rfl⟩

/-- The `io` step (table shape). -/
theorem pg_io_step_ok {conn : Conn} {t t' : List Ev} {v : PgMetric}
    (h : pg_io_step conn t = (.ok v, t')) :
    t' = (t ++ [Ev.fetch TABLE_STATIO]) ++ [Ev.fetch INDEX_STATIO] ∧ v.table = "io" := by
  unfold pg_io_step at h
  rw [CM.bind_eq_ok] at h
  obtain ⟨rows, t1, h1, h⟩ := h
  rw [_get_metrics_run, Prod.mk.injEq, Except.ok.injEq] at h1
  obtain ⟨hrows, ht1⟩ := h1
  subst hrows; subst ht1
  rw [CM.bind_eq_ok] at h
  obtain ⟨r0, t2, h2, h⟩ := h
  have ht2 := trace_of_eq (tracePure_pyHead _) h2
  subst ht2
  rw [CM.bind_eq_ok] at h
  obtain ⟨rows2, t3, h3, h⟩ := h
  rw [_get_metrics_run, Prod.mk.injEq, Except.ok.injEq] at h3
  obtain ⟨hrows2, ht3⟩ := h3
  subst hrows2; subst ht3
  rw [CM.bind_eq_ok] at h
  obtain ⟨r1, t4, h4, h⟩ := h
  have ht4 := trace_of_eq (tracePure_pyHead _) h4
  subst ht4
  obtain ⟨hv, ht⟩ := run_pure_inv
    (show ((Except.ok (PgMetric.mk "io" _), _) :
      Except String PgMetric × List Ev) = (.ok v, t') from h)
  rw [← ht, ← hv]
  exact ⟨rfl, rfl⟩

/-- The `sessions` step (table shape). -/
theorem pg_sessions_ok {conn : Conn} {t t' : List Ev} {v : PgMetric}
    (h : pg_sessions conn t = (.ok v, t')) :
    t' = t ++ ACTIVITY_QUERIES.map Ev.fetch ∧ v.table = "sessions" := by
  unfold pg_sessions at h
  rw [CM.bind_eq_ok] at h
  obtain ⟨data, t1, h1, h⟩ := h
  have ht1 := CM.foldlM_fetch_trace
    (fun b q t => sessions_body_trace conn b q t) ACTIVITY_QUERIES [] h1
  subst ht1
  obtain ⟨hv, ht⟩ := run_pure_inv
    (show ((Except.ok (PgMetric.mk "sessions" (PgData.one data)), _) :
      Except String PgMetric × List Ev) = (.ok v, t') from h)
  rw [← ht, ← hv]
  exact ⟨rfl, rfl⟩

/-- The `active_sessions` step (table shape). -/
theorem pg_active_sessions_ok {conn : Conn} {t t' : List Ev} {v : PgMetric}
    (h : pg_active_sessions conn t = (.ok v, t')) :
    t' = t ++ [Ev.fetch STATE_GROUP_SQL] ∧ v.table = "active_sessions" := by
  unfold pg_active_sessions at h
  rw [CM.bind_eq_ok] at h
  obtain ⟨rows, t1, h1, h⟩ := h
  rw [_get_metrics_run, Prod.mk.injEq, Except.ok.injEq] at h1
  obtain ⟨hrows, ht1⟩ := h1
  subst hrows; subst ht1
  rw [CM.bind_eq_ok] at h
  obtain ⟨data, t2, h2, h⟩ := h
  have ht2 := trace_of_eq (tracePure_foldlM (fun b row =>
    tracePure_bind (tracePure_pyGetKey _ _) (fun sv =>
      tracePure_bind (tracePure_asPyStr _) (fun s =>
        tracePure_bind (tracePure_pyGetKey _ _) (fun cv => tracePure_pure _)))) _ _) h2
  subst ht2
  obtain ⟨hv, ht⟩ := run_pure_inv
    (show ((Except.ok (PgMetric.mk "active_sessions" (PgData.one data)), _) :
      Except String PgMetric × List Ev) = (.ok v, t') from h)
  rw [← ht, ← hv]
  exact ⟨rfl, rfl⟩

/-- The `waiting_sessions` step (table shape). -/
theorem pg_waiting_sessions_ok {conn : Conn} {t t' : List Ev} {v : PgMetric}
    (h : pg_waiting_sessions conn t = (.ok v, t')) :
    t' = t ++ [Ev.fetch WAIT_GROUP_SQL] ∧ v.table = "waiting_sessions" := by
  unfold pg_waiting_sessions at h
  rw [CM.bind_eq_ok] at h
  obtain ⟨rows, t1, h1, h⟩ := h
  rw [_get_metrics_run, Prod.mk.injEq, Except.ok.injEq] at h1
  obtain ⟨hrows, ht1⟩ := h1
  subst hrows; subst ht1
  rw [CM.bind_eq_ok] at h
  obtain ⟨data, t2, h2, h⟩ := h
  have ht2 := trace_of_eq (tracePure_foldlM (fun b row =>
    tracePure_bind (tracePure_pyGetKey _ _) (fun wv =>
      tracePure_bind (tracePure_asPyStr _) (fun w =>
        tracePure_bind (tracePure_pyGetKey _ _) (fun cv => tracePure_pure _)))) _ _) h2
  subst ht2
  obtain ⟨hv, ht⟩ := run_pure_inv
    (show ((Except.ok (PgMetric.mk "waiting_sessions" (PgData.one data)), _) :
      Except String PgMetric × List Ev) = (.ok v, t') from h)
  rw [← ht, ← hv]
  exact ⟨rfl, rfl⟩

/-- The `performance` step (table shape): the two `pg_stat_statements`
reads (throughput, 95th-percentile latency), after the statements
accumulator has already been reset by `_get_stat_statements`. -/
theorem pg_performance_ok {conn : Conn} {t t' : List Ev} {v : PgMetric}
    (h : pg_performance conn t = (.ok v, t')) :
    t' = (t ++ [Ev.fetch TPS_SQL]) ++ [Ev.fetch LATENCY_95TH_SQL] ∧
      v.table = "performance" := by
  unfold pg_performance at h
  rw [CM.bind_eq_ok] at h
  obtain ⟨tpsRows, t1, h1, h⟩ := h
  rw [_get_metrics_run, Prod.mk.injEq, Except.ok.injEq] at h1
  obtain ⟨hrows, ht1⟩ := h1
  subst hrows; subst ht1
  rw [CM.bind_eq_ok] at h
  obtain ⟨tps, t2, h2, h⟩ := h
  have ht2 := trace_of_eq (tracePure_pyHead _) h2
  subst ht2
  rw [CM.bind_eq_ok] at h
  obtain ⟨latRows, t3, h3, h⟩ := h
  rw [_get_metrics_run, Prod.mk.injEq, Except.ok.injEq] at h3
  obtain ⟨hrows2, ht3⟩ := h3
  subst hrows2; subst ht3
  rw [CM.bind_eq_ok] at h
  obtain ⟨lat, t4, h4, h⟩ := h
  have ht4 := trace_of_eq (tracePure_pyHead _) h4
  subst ht4
  obtain ⟨hv, ht⟩ := run_pure_inv
    (show ((Except.ok (PgMetric.mk "performance" _), _) :
      Except String PgMetric × List Ev) = (.ok v, t') from h)
  rw [← ht, ← hv]
  exact ⟨rfl, rfl⟩

/-- Master characterization of a successful tagged-measurement cycle
started on an empty trace: the result extends the caller's list with
the fresh records in the fixed order, and the statement trace is one of
three shapes (extension present / installed on the fly / install
failed). -/
theorem influx_run_ok {conn : Conn} {ms out : List InfluxMetric} {tr : List Ev}
    (h : collect_metrics_influx conn ms [] = (.ok out, tr)) :
    (∃ fresh, out = ms ++ fresh ∧
      ∃ n1 n2 k : ℕ, fresh.map (fun m => m.measurement)
        = ("bgwriter" :: (List.replicate n1 "database_statistics"
            ++ List.replicate n2 "conflicts"))
          ++ (["access", "io", "sessions", "active_sessions", "waiting_sessions"]
            ++ List.replicate k "query_statistics")) ∧
    (tr = ([Ev.fetch BGWRITER_SQL, Ev.fetch PG_STAT_DATABASE_SQL,
            Ev.fetch PG_STAT_DATABASE_CONFLICTS_SQL, Ev.fetch TABLE_STAT,
            Ev.fetch INDEX_STAT, Ev.fetch TABLE_STATIO, Ev.fetch INDEX_STATIO]
          ++ ACTIVITY_QUERIES.map Ev.fetch
          ++ [Ev.fetch STATE_GROUP_SQL, Ev.fetch WAIT_GROUP_SQL,
              Ev.fetch CHECK_MODULE_SQL, Ev.fetch PG_STAT_STATEMENTS_EDA_SQL,
              Ev.exec RESET_STATEMENTS_SQL, Ev.exec RESET_STATS_SQL]) ∨
     tr = ([Ev.fetch BGWRITER_SQL, Ev.fetch PG_STAT_DATABASE_SQL,
            Ev.fetch PG_STAT_DATABASE_CONFLICTS_SQL, Ev.fetch TABLE_STAT,
            Ev.fetch INDEX_STAT, Ev.fetch TABLE_STATIO, Ev.fetch INDEX_STATIO]
          ++ ACTIVITY_QUERIES.map Ev.fetch
          ++ [Ev.fetch STATE_GROUP_SQL, Ev.fetch WAIT_GROUP_SQL,
              Ev.fetch CHECK_MODULE_SQL, Ev.exec LOAD_MODULE_SQL, Ev.commit,
              Ev.fetch PG_STAT_STATEMENTS_EDA_SQL,
              Ev.exec RESET_STATEMENTS_SQL, Ev.exec RESET_STATS_SQL]) ∨
     tr = ([Ev.fetch BGWRITER_SQL, Ev.fetch PG_STAT_DATABASE_SQL,
            Ev.fetch PG_STAT_DATABASE_CONFLICTS_SQL, Ev.fetch TABLE_STAT,
            Ev.fetch INDEX_STAT, Ev.fetch TABLE_STATIO, Ev.fetch INDEX_STATIO]
          ++ ACTIVITY_QUERIES.map Ev.fetch
          ++ [Ev.fetch STATE_GROUP_SQL, Ev.fetch WAIT_GROUP_SQL,
              Ev.fetch CHECK_MODULE_SQL, Ev.exec LOAD_MODULE_SQL, Ev.rollback,
              Ev.exec RESET_STATS_SQL])) := by
  unfold collect_metrics_influx at h
  rw [CM.bind_eq_ok] at h
  obtain ⟨m1, t1, h1, h⟩ := h
  obtain ⟨ht1, hm1⟩ := influx_bgwriter_ok h1
  subst ht1
  rw [CM.bind_eq_ok] at h
  obtain ⟨ms2, t2, h2, h⟩ := h
  obtain ⟨ht2, n1, n2, hdb⟩ := influx_database_ok h2
  subst ht2
  rw [CM.bind_eq_ok] at h
  obtain ⟨m3, t3, h3, h⟩ := h
  obtain ⟨ht3, hm3⟩ := influx_access_ok h3
  subst ht3
  rw [CM.bind_eq_ok] at h
  obtain ⟨m4, t4, h4, h⟩ := h
  obtain ⟨ht4, hm4⟩ := influx_io_step_ok h4
  subst ht4
  rw [CM.bind_eq_ok] at h
  obtain ⟨m5, t5, h5, h⟩ := h
  obtain ⟨ht5, hm5⟩ := influx_sessions_ok h5
  subst ht5
  rw [CM.bind_eq_ok] at h
  obtain ⟨m6, t6, h6, h⟩ := h
  obtain ⟨ht6, hm6⟩ := influx_active_sessions_ok h6
  subst ht6
  rw [CM.bind_eq_ok] at h
  obtain ⟨m7, t7, h7, h⟩ := h
  obtain ⟨ht7, hm7⟩ := influx_waiting_sessions_ok h7
  subst ht7
  rw [CM.bind_eq_ok] at h
  obtain ⟨rows, t8, h8, h⟩ := h
  rw [CM.bind_eq_ok] at h
  obtain ⟨u, t9, h9, h⟩ := h
  have ht9 := _cmd_wo_fetch_ok h9
  subst ht9
  obtain ⟨hout, htr⟩ := run_pure_inv
    (show ((Except.ok _, _) : Except String (List InfluxMetric) × List Ev)
      = (.ok out, tr) from h)
  subst htr
  constructor
  · refine ⟨[m1] ++ ms2 ++ [m3] ++ [m4] ++ [m5] ++ [m6] ++ [m7]
      ++ rows.map (fun row => InfluxMetric.mk "query_statistics"
          (some (row.filter (fun p => p.1 = "queryid")))
          (row.filter (fun p => p.1 ≠ "queryid"))), ?_, ?_⟩
    · rw [← hout]
      simp [List.append_assoc]
    · refine ⟨n1, n2, rows.length, ?_⟩
      have hqs : (rows.map (fun row => InfluxMetric.mk "query_statistics"
          (some (row.filter (fun p => p.1 = "queryid")))
          (row.filter (fun p => p.1 ≠ "queryid")))).map (fun m => m.measurement)
          = List.replicate rows.length "query_statistics" := by
        rw [map_measurement_replicate (by
          intro b hb
          obtain ⟨row, hrow, rfl⟩ := List.mem_map.mp hb
          rfl)]
        rw [List.length_map]
      simp only [List.map_append, List.map_cons, List.map_nil, hdb, hm1, hm3, hm4,
        hm5, hm6, hm7, hqs]
      simp [List.append_assoc]
  · rcases _get_stat_statements_ok h8 with ht8 | ht8 | ⟨ht8, -⟩ <;> subst ht8
    · exact Or.inl (by simp [List.append_assoc])
    · exact Or.inr (Or.inl (by simp [List.append_assoc]))
    · exact Or.inr (Or.inr (by simp [List.append_assoc]))

/-- Master characterization of a successful table-oriented cycle
started on an empty trace: fixed record names in order, and one of
three statement-trace shapes, each ending with the two performance
reads followed by the unconditional reset. -/
theorem pg_run_ok {conn : Conn} {ms out : List PgMetric} {tr : List Ev}
    (h : collect_metrics_pg conn ms [] = (.ok out, tr)) :
    (∃ fresh, out = ms ++ fresh ∧
      fresh.map (fun m => m.table)
        = ["bgwriter", "database_statistics", "conflicts", "access", "io", "sessions",
           "active_sessions", "waiting_sessions", "query_statistics", "performance"]) ∧
    (tr = ([Ev.fetch BGWRITER_SQL, Ev.fetch PG_STAT_DATABASE_SQL,
            Ev.fetch PG_STAT_DATABASE_CONFLICTS_SQL, Ev.fetch TABLE_STAT,
            Ev.fetch INDEX_STAT, Ev.fetch TABLE_STATIO, Ev.fetch INDEX_STATIO]
          ++ ACTIVITY_QUERIES.map Ev.fetch
          ++ [Ev.fetch STATE_GROUP_SQL, Ev.fetch WAIT_GROUP_SQL,
              Ev.fetch CHECK_MODULE_SQL, Ev.fetch PG_STAT_STATEMENTS_EDA_SQL,
              Ev.exec RESET_STATEMENTS_SQL,
              Ev.fetch TPS_SQL, Ev.fetch LATENCY_95TH_SQL, Ev.exec RESET_STATS_SQL]) ∨
     tr = ([Ev.fetch BGWRITER_SQL, Ev.fetch PG_STAT_DATABASE_SQL,
            Ev.fetch PG_STAT_DATABASE_CONFLICTS_SQL, Ev.fetch TABLE_STAT,
            Ev.fetch INDEX_STAT, Ev.fetch TABLE_STATIO, Ev.fetch INDEX_STATIO]
          ++ ACTIVITY_QUERIES.map Ev.fetch
          ++ [Ev.fetch STATE_GROUP_SQL, Ev.fetch WAIT_GROUP_SQL,
              Ev.fetch CHECK_MODULE_SQL, Ev.exec LOAD_MODULE_SQL, Ev.commit,
              Ev.fetch PG_STAT_STATEMENTS_EDA_SQL, Ev.exec RESET_STATEMENTS_SQL,
              Ev.fetch TPS_SQL, Ev.fetch LATENCY_95TH_SQL, Ev.exec RESET_STATS_SQL]) ∨
     tr = ([Ev.fetch BGWRITER_SQL, Ev.fetch PG_STAT_DATABASE_SQL,
            Ev.fetch PG_STAT_DATABASE_CONFLICTS_SQL, Ev.fetch TABLE_STAT,
            Ev.fetch INDEX_STAT, Ev.fetch TABLE_STATIO, Ev.fetch INDEX_STATIO]
          ++ ACTIVITY_QUERIES.map Ev.fetch
          ++ [Ev.fetch STATE_GROUP_SQL, Ev.fetch WAIT_GROUP_SQL,
              Ev.fetch CHECK_MODULE_SQL, Ev.exec LOAD_MODULE_SQL, Ev.rollback,
              Ev.fetch TPS_SQL, Ev.fetch LATENCY_95TH_SQL, Ev.exec RESET_STATS_SQL])) := by
  unfold collect_metrics_pg at h
  rw [CM.bind_eq_ok] at h
  obtain ⟨m1, t1, h1, h⟩ := h
  obtain ⟨ht1, hm1⟩ := pg_bgwriter_ok h1
  subst ht1
  rw [CM.bind_eq_ok] at h
  obtain ⟨ms2, t2, h2, h⟩ := h
  obtain ⟨ht2, hdb⟩ := pg_database_ok h2
  subst ht2
  rw [CM.bind_eq_ok] at h
  obtain ⟨m3, t3, h3, h⟩ := h
  obtain ⟨ht3, hm3⟩ := pg_access_ok h3
  subst ht3
  rw [CM.bind_eq_ok] at h
  obtain ⟨m4, t4, h4, h⟩ := h
  obtain ⟨ht4, hm4⟩ := pg_io_step_ok h4
  subst ht4
  rw [CM.bind_eq_ok] at h
  obtain ⟨m5, t5, h5, h⟩ := h
  obtain ⟨ht5, hm5⟩ := pg_sessions_ok h5
  subst ht5
  rw [CM.bind_eq_ok] at h
  obtain ⟨m6, t6, h6, h⟩ := h
  obtain ⟨ht6, hm6⟩ := pg_active_sessions_ok h6
  subst ht6
  rw [CM.bind_eq_ok] at h
  obtain ⟨m7, t7, h7, h⟩ := h
  obtain ⟨ht7, hm7⟩ := pg_waiting_sessions_ok h7
  subst ht7
  rw [CM.bind_eq_ok] at h
  obtain ⟨rows, t8, h8, h⟩ := h
  rw [CM.bind_eq_ok] at h
  obtain ⟨m9, t9, h9, h⟩ := h
  obtain ⟨ht9, hm9⟩ := pg_performance_ok h9
  subst ht9
  rw [CM.bind_eq_ok] at h
  obtain ⟨u, t10, h10, h⟩ := h
  have ht10 := _cmd_wo_fetch_ok h10
  subst ht10
  obtain ⟨hout, htr⟩ := run_pure_inv
    (show ((Except.ok _, _) : Except String (List PgMetric) × List Ev)
      = (.ok out, tr) from h)
  subst htr
  constructor
  · refine ⟨[m1] ++ ms2 ++ [m3] ++ [m4] ++ [m5] ++ [m6] ++ [m7]
      ++ [PgMetric.mk "query_statistics" (PgData.many rows)] ++ [m9], ?_, ?_⟩
    · rw [← hout]
      simp [List.append_assoc]
    · simp only [List.map_append, List.map_cons, List.map_nil, hdb, hm1, hm3, hm4,
        hm5, hm6, hm7, hm9]
      simp [List.append_assoc]
  · rcases _get_stat_statements_ok h8 with ht8 | ht8 | ⟨ht8, -⟩ <;> subst ht8
    · exact Or.inl (by simp [List.append_assoc])
    · exact Or.inr (Or.inl (by simp [List.append_assoc]))
    · exact Or.inr (Or.inr (by simp [List.append_assoc]))

/-! ## Claim theorems: cycle ordering and frame -/

set_option maxRecDepth 10000 in
/-- C1, counterexample: a completed `collect_metrics_pg` cycle issues
the statements-reset and then still reads `pg_stat_statements` twice
(throughput and 95th-percentile latency), so a statistics-reset command
is issued before every read of the cycle has completed. -/
theorem pg_cycle_resets_before_performance_reads :
    runOk pgRunEx = true ∧ noReadAfterReset pgTraceEx = false := by
  constructor
  · decide
  · decide

set_option maxRecDepth 10000 in
/-- C1, amended: in the tagged-measurement cycle no statistics-reset
command precedes any read and the unconditional `pg_stat_reset` is the
last operation; in the table-oriented cycle `pg_stat_reset` is still
the last operation, but the statements-reset issued inside
`_get_stat_statements` precedes the two performance reads of
`pg_stat_statements` — those two reads are the only reads that can
follow a reset (the counterexample shows the unqualified claim fails
for `collect_metrics_pg`). -/
theorem cycle_reset_ordering_amended :
    (∀ (conn : Conn) (ms out : List InfluxMetric) (tr : List Ev),
        collect_metrics_influx conn ms [] = (.ok out, tr) →
        noReadAfterReset tr = true ∧ tr.getLast? = some (Ev.exec RESET_STATS_SQL)) ∧
    (∀ (conn : Conn) (ms out : List PgMetric) (tr : List Ev),
        collect_metrics_pg conn ms [] = (.ok out, tr) →
        tr.getLast? = some (Ev.exec RESET_STATS_SQL) ∧
        (readsAfterFirstReset tr).all
          (fun q => q = TPS_SQL || q = LATENCY_95TH_SQL) = true) := by
  constructor
  · intro conn ms out tr h
    rcases (influx_run_ok h).2 with htr | htr | htr <;> subst htr <;>
      exact ⟨by decide, by decide⟩
  · intro conn ms out tr h
    rcases (pg_run_ok h).2 with htr | htr | htr <;> subst htr <;>
      exact ⟨by decide, by decide⟩

set_option maxRecDepth 10000 in
theorem cycle_reset_ordering_amended_witness :
    (noReadAfterReset influxTraceEx = true ∧
     influxTraceEx.getLast? = some (Ev.exec RESET_STATS_SQL)) ∧
    (pgTraceEx.getLast? = some (Ev.exec RESET_STATS_SQL) ∧
     (readsAfterFirstReset pgTraceEx).all
       (fun q => q = TPS_SQL || q = LATENCY_95TH_SQL) = true) :=
  ⟨cycle_reset_ordering_amended.1 connEx [] influxOutEx influxTraceEx (by rfl),
   cycle_reset_ordering_amended.2 connEx [] pgOutEx pgTraceEx (by rfl)⟩

/-- C10: both entry points leave every pre-existing element of the
caller's metrics list unchanged and in place and only append the fresh
records of the cycle, in the fixed order — bgwriter, the raw database
views, access, io, sessions, active_sessions, waiting_sessions, the
query statistics, and (table-oriented shape only) performance last. -/
theorem collect_entry_points_append_only :
    (∀ (conn : Conn) (ms out : List InfluxMetric) (tr : List Ev),
        collect_metrics_influx conn ms [] = (.ok out, tr) →
        ∃ fresh, out = ms ++ fresh ∧
          ∃ n1 n2 k : ℕ, fresh.map (fun m => m.measurement)
            = ("bgwriter" :: (List.replicate n1 "database_statistics"
                ++ List.replicate n2 "conflicts"))
              ++ (["access", "io", "sessions", "active_sessions", "waiting_sessions"]
                ++ List.replicate k "query_statistics")) ∧
    (∀ (conn : Conn) (ms out : List PgMetric) (tr : List Ev),
        collect_metrics_pg conn ms [] = (.ok out, tr) →
        ∃ fresh, out = ms ++ fresh ∧
          fresh.map (fun m => m.table)
            = ["bgwriter", "database_statistics", "conflicts", "access", "io", "sessions",
               "active_sessions", "waiting_sessions", "query_statistics", "performance"]) :=
  ⟨fun _ _ _ _ h => (influx_run_ok h).1, fun _ _ _ _ h => (pg_run_ok h).1⟩

set_option maxRecDepth 10000 in
theorem collect_entry_points_append_only_witness :
    (∃ fresh, influxOutEx = [] ++ fresh ∧
      ∃ n1 n2 k : ℕ, fresh.map (fun m => m.measurement)
        = ("bgwriter" :: (List.replicate n1 "database_statistics"
            ++ List.replicate n2 "conflicts"))
          ++ (["access", "io", "sessions", "active_sessions", "waiting_sessions"]
            ++ List.replicate k "query_statistics")) ∧
    (∃ fresh, pgOutEx = [] ++ fresh ∧
      fresh.map (fun m => m.table)
        = ["bgwriter", "database_statistics", "conflicts", "access", "io", "sessions",
           "active_sessions", "waiting_sessions", "query_statistics", "performance"]) :=
  ⟨collect_entry_points_append_only.1 connEx [] influxOutEx influxTraceEx (by rfl),
   collect_entry_points_append_only.2 connEx [] pgOutEx pgTraceEx (by rfl)⟩
